import Mathlib

/-!
Verification development for the XML maintainability analyzer in
`Evolution_analysis.py`.  The file defines that analyzer twice: an original
class `XMLMaintainabilityAnalyzer` (lines 473-710) and an "optimized rewrite"
with the same name (lines 773-1043) that shadows the first at module scope.
Both are embedded here, as namespaces `V1` (original) and `V2` (rewrite).

Modelling conventions:
- An XML document is an `Element` tree (tag, attribute list, children),
  standing for `xml.etree.ElementTree.Element`.
- Python truth-value testing is modelled faithfully:
  - a string is truthy iff it is non-empty;
  - `None` is falsy;
  - an `ElementTree.Element` is truthy iff it has at least one child
    (`Element.__bool__` returns `len(children) != 0`; verified on CPython).
- The regexes `^\d+(\.\d+)?$`, `[^\w\s\(\)]` and `Python (\d+\.\d+)` are
  embedded as executable character-list matchers.  `\d`, `\w`, `\s` are
  modelled as their ASCII classes (the Unicode extensions of those classes
  play no role in any claim).  Python's `$` also matches just before one
  trailing newline, which the version matcher reproduces.
- `float(group)` on a string matched by `\d+\.\d+` is the exact decimal
  value intPart + frac / 10^(number of fraction digits); the comparison with
  the threshold 3.8 is carried out exactly over the integers (IEEE rounding
  could differ only for astronomically long digit runs, which no claim
  involves).  In particular `float("3.10")` is the number 3.1.
- File-system interaction is abstracted into a `LoadOutcome` (file absent /
  parse error / permission error / other error / parsed root) plus a flag
  telling whether the path's suffix lowercases to ".xml"; everything after
  that point is translated statement by statement from the source.
- Issue messages are represented by an `Issue` inductive carrying the
  constructor ("kind") and the data interpolated into the message; the
  surrounding report text is abstracted to the data it displays
  (score, grade, issue list).
-/

/-! ### Character classes (ASCII model of `\d`, `\w`, `\s`) -/

def isDigitChar (c : Char) : Bool := c.isDigit

def isWordChar (c : Char) : Bool := c.isAlphanum || c == '_'

def isSpaceChar (c : Char) : Bool :=
  c == ' ' || c == '\t' || c == '\n' || c == '\r' || c == '\x0b' || c == '\x0c'

/-! ### `VERSION_PATTERN = r"^\d+(\.\d+)?$"`, used with `re.match` -/

/-- Core of `^\d+(\.\d+)?$` against a whole character list:
one or more digits, optionally followed by a dot and one or more digits. -/
def versionCore (l : List Char) : Bool :=
  let ds := l.takeWhile isDigitChar
  let rest := l.drop ds.length
  (!ds.isEmpty) &&
    (match rest with
     | [] => true
     | '.' :: t => (!t.isEmpty) && t.all isDigitChar
     | _ => false)

/-- `re.match(VERSION_PATTERN, s)` succeeds: Python's `$` also matches just
before a single trailing newline. -/
def matchesVersionPattern (s : String) : Bool :=
  versionCore s.toList ||
    (match s.toList.getLast? with
     | some '\n' => versionCore s.toList.dropLast
     | _ => false)

/-! ### `SPECIAL_CHAR_PATTERN = r"[^\w\s\(\)]"`, used with `re.search` -/

def hasSpecialChar (s : String) : Bool :=
  s.toList.any (fun c => !(isWordChar c || isSpaceChar c || c == '(' || c == ')'))

/-! ### `PYTHON_VERSION_PATTERN = r"Python (\d+\.\d+)"`, used with `re.search` -/

/-- Try to match `Python (\d+\.\d+)` anchored at the head of `l`;
returns the two captured digit runs. (For this pattern greedy maximal-munch
digit runs are the only possible match, so no backtracking is needed.) -/
def pyVersionMatchHere (l : List Char) : Option (List Char × List Char) :=
  match l with
  | 'P' :: 'y' :: 't' :: 'h' :: 'o' :: 'n' :: ' ' :: rest =>
    let d1 := rest.takeWhile isDigitChar
    let rest1 := rest.drop d1.length
    if d1.isEmpty then none
    else
      match rest1 with
      | '.' :: rest2 =>
        let d2 := rest2.takeWhile isDigitChar
        if d2.isEmpty then none else some (d1, d2)
      | _ => none
  | _ => none

/-- `re.search`: leftmost position where the pattern matches. -/
def pyVersionSearch : List Char → Option (List Char × List Char)
  | [] => none
  | c :: cs =>
    match pyVersionMatchHere (c :: cs) with
    | some r => some r
    | none => pyVersionSearch cs

/-- Substring test (`"Python" in jdk_val`). -/
def isPrefixCL : List Char → List Char → Bool
  | [], _ => true
  | _ :: _, [] => false
  | a :: as, b :: bs => a == b && isPrefixCL as bs

def containsSub (pat : List Char) : List Char → Bool
  | [] => isPrefixCL pat []
  | c :: cs => isPrefixCL pat (c :: cs) || containsSub pat cs

def containsPython (s : String) : Bool :=
  containsSub "Python".toList s.toList

/-- Numeric value of a digit run. -/
def digitsVal (l : List Char) : Nat :=
  l.foldl (fun n c => 10 * n + (c.toNat - '0'.toNat)) 0

/-- `float(d1 ++ "." ++ d2) < MIN_SUPPORTED_PYTHON_VERSION` (threshold 3.8),
computed exactly: intPart + frac/10^k < 38/10. -/
def pyVersionTooLow (d1 d2 : List Char) : Bool :=
  10 * (digitsVal d1 * 10 ^ d2.length + digitsVal d2) < 38 * 10 ^ d2.length

/-! ### XML element model -/

structure Element where
  tag : String
  attrs : List (String × String)
  children : List Element
deriving Repr

/-- `element.get(key)`: attribute lookup (XML attributes are unique per
element; first match). -/
def Element.getAttr (e : Element) (key : String) : Option String :=
  (e.attrs.find? (fun p => p.1 = key)).map (fun p => p.2)

/-- Python truth value of an `ElementTree.Element`: it has children. -/
def Element.truthy (e : Element) : Bool :=
  !e.children.isEmpty

/-- `root.findall("component")`: direct children with tag `component`. -/
def Element.components (e : Element) : List Element :=
  e.children.filter (fun c => c.tag = "component")

/-- `component.find("option[@name='project-jdk-name']")`: first direct child
with tag `option` whose `name` attribute is `project-jdk-name`. -/
def Element.findJdkOption (e : Element) : Option Element :=
  e.children.find? (fun c =>
    c.tag = "option" && c.getAttr "name" = some "project-jdk-name")

/-- Truth value of `Optional[Element]` (`if not self.root: ...`):
`None` is falsy, an element is truthy iff it has children. -/
def rootTruthy : Option Element → Bool
  | none => false
  | some e => e.truthy

/-! ### Issues -/

/-- One recorded maintainability issue: the constructor is the kind of the
message, arguments are the data interpolated into it. -/
inductive Issue where
  /-- Message `[警告] 文件不是XML格式` -/
  | nonXmlFile : Issue
  /-- Message `[严重] 文件不存在` -/
  | fileNotFound : Issue
  /-- Message `[严重] XML语法错误` -/
  | xmlParseError : Issue
  /-- Message `[权限] 文件读取权限不足` (rewrite only) -/
  | permissionDenied : Issue
  /-- Message `[未知] 文件加载失败` -/
  | unknownLoadError : Issue
  /-- Message `[规范] project版本格式不规范: v` -/
  | invalidVersionFormat (v : String) : Issue
  /-- Message `[规范] Python SDK名称含特殊字符: v` -/
  | sdkSpecialChars (v : String) : Issue
  /-- Message `[规范] 存在无名称的component配置项` -/
  | missingComponentName : Issue
  /-- Message `[重复] 存在重复的component配置: name` -/
  | duplicateComponent (name : String) : Issue
  /-- Message `[兼容] Python版本…过低` carrying the two matched digit runs -/
  | pythonVersionTooLow (d1 d2 : String) : Issue
  /-- Message `[兼容] 无法识别Python版本格式: v` (rewrite only) -/
  | unparseablePythonVersion (v : String) : Issue
deriving Repr, DecidableEq

/-- The kind of an issue, forgetting interpolated data. -/
inductive IssueKind where
  | nonXmlFile | fileNotFound | xmlParseError | permissionDenied
  | unknownLoadError | invalidVersionFormat | sdkSpecialChars
  | missingComponentName | duplicateComponent | pythonVersionTooLow
  | unparseablePythonVersion
deriving Repr, DecidableEq

def Issue.kind : Issue → IssueKind
  | .nonXmlFile => .nonXmlFile
  | .fileNotFound => .fileNotFound
  | .xmlParseError => .xmlParseError
  | .permissionDenied => .permissionDenied
  | .unknownLoadError => .unknownLoadError
  | .invalidVersionFormat _ => .invalidVersionFormat
  | .sdkSpecialChars _ => .sdkSpecialChars
  | .missingComponentName => .missingComponentName
  | .duplicateComponent _ => .duplicateComponent
  | .pythonVersionTooLow _ _ => .pythonVersionTooLow
  | .unparseablePythonVersion _ => .unparseablePythonVersion

/-! ### Penalty constants -/

/-- `SCORE_DEDUCTIONS` dict of the original module section. -/
def SCORE_DEDUCTIONS (key : String) : Int :=
  if key = "file_not_found" then 50
  else if key = "xml_parse_error" then 80
  else if key = "unknown_load_error" then 30
  else if key = "invalid_version_format" then 10
  else if key = "sdk_special_chars" then 15
  else if key = "duplicate_component" then 20
  else if key = "python_version_too_low" then 10
  else 0

namespace ScoreDeduction

/-! `ScoreDeduction` frozen dataclass of the rewrite. -/

def FILE_NOT_FOUND : Int := 50
def XML_PARSE_ERROR : Int := 80
def UNKNOWN_LOAD_ERROR : Int := 30
def INVALID_VERSION_FORMAT : Int := 10
def SDK_SPECIAL_CHARS : Int := 15
def DUPLICATE_COMPONENT : Int := 20
def PYTHON_VERSION_TOO_LOW : Int := 10
def EMPTY_COMPONENT_NAME : Int := 10
def INVALID_PYTHON_VERSION_PARSE : Int := 10
def NON_XML_FILE : Int := 10

end ScoreDeduction

/-! ### Analyzer state and load outcomes -/

/-- The mutable state of one analyzer instance: `self.root` (the parsed
document, `None` on load failure), `self.issues`, `self.readability_score`.
The file path and the `self.tree` handle carry no behaviour beyond what
`LoadOutcome` and the suffix flag capture. -/
structure AnalyzerState where
  root : Option Element
  issues : List Issue
  score : Int
deriving Repr

/-- State at the top of `__init__`, before `load_xml` runs. -/
def initState : AnalyzerState := { root := none, issues := [], score := 100 }

/-- Result of the file-system interaction in `load_xml`:
the file is absent, `ET.parse` raises a parse error, a permission error,
some other exception, or parsing succeeds with the given root element. -/
inductive LoadOutcome where
  | notFound
  | parseError
  | permissionError
  | otherError
  | ok (root : Element)
deriving Repr

/-! ### Original analyzer (`XMLMaintainabilityAnalyzer`, lines 473-710) -/

namespace V1

/-- `load_xml` of the original class.  The suffix warning is recorded first
(before the `try` block); then the parse attempt; finally
`self.readability_score = max(0, self.readability_score)`.
A `PermissionError` is caught by the generic `except Exception` branch. -/
def load_xml (xmlSuffix : Bool) (outcome : LoadOutcome) (s : AnalyzerState) :
    AnalyzerState :=
  let s1 :=
    if xmlSuffix then s
    else { s with issues := s.issues ++ [Issue.nonXmlFile], score := s.score - 10 }
  let s2 :=
    match outcome with
    | .notFound =>
      { s1 with issues := s1.issues ++ [Issue.fileNotFound],
                score := s1.score - SCORE_DEDUCTIONS "file_not_found" }
    | .parseError =>
      { s1 with issues := s1.issues ++ [Issue.xmlParseError],
                score := s1.score - SCORE_DEDUCTIONS "xml_parse_error" }
    | .permissionError =>
      { s1 with issues := s1.issues ++ [Issue.unknownLoadError],
                score := s1.score - SCORE_DEDUCTIONS "unknown_load_error" }
    | .otherError =>
      { s1 with issues := s1.issues ++ [Issue.unknownLoadError],
                score := s1.score - SCORE_DEDUCTIONS "unknown_load_error" }
    | .ok root => { s1 with root := some root }
  { s2 with score := max 0 s2.score }

/-- Analyzer construction: `__init__` sets the fields and calls `load_xml`. -/
def mkAnalyzer (xmlSuffix : Bool) (outcome : LoadOutcome) : AnalyzerState :=
  load_xml xmlSuffix outcome initState

/-- Issues and total deduction of the body of `check_config_norm` (everything
between the `if not self.root` guard and the final clamp).  The score is only
read again after the loop, so the successive `-=` statements amount to
subtracting the total. -/
def normSdkStep (acc : List Issue × Int) (c : Element) : List Issue × Int :=
  if c.getAttr "name" = some "ProjectRootManager" then
    match c.findJdkOption with
    | some opt =>
      if opt.truthy then
        match opt.getAttr "value" with
        | some v =>
          if v ≠ "" && hasSpecialChar v then
            (acc.1 ++ [Issue.sdkSpecialChars v],
             acc.2 + SCORE_DEDUCTIONS "sdk_special_chars")
          else acc
        | none => acc
      else acc
    | none => acc
  else acc

def normCore (e : Element) : List Issue × Int :=
  let versionPart : List Issue × Int :=
    match e.getAttr "version" with
    | some v =>
      if v ≠ "" && !matchesVersionPattern v then
        ([Issue.invalidVersionFormat v], SCORE_DEDUCTIONS "invalid_version_format")
      else ([], 0)
    | none => ([], 0)
  let sdkPart : List Issue × Int := e.components.foldl normSdkStep ([], 0)
  (versionPart.1 ++ sdkPart.1, versionPart.2 + sdkPart.2)

/-- `check_config_norm`: early (unclamped) return when `self.root` is falsy,
otherwise run the two checks and clamp the score from below. -/
def check_config_norm (s : AnalyzerState) : AnalyzerState × List Issue :=
  if !rootTruthy s.root then (s, [])
  else
    match s.root with
    | none => (s, [])
    | some e =>
      let r := normCore e
      ({ s with score := max 0 (s.score - r.2) }, r.1)

/-- Loop body of `detect_duplicate_config`: walk the components keeping the
`component_names` list seen so far; returns issues and total deduction. -/
def dupCore : List Element → List String → List Issue × Int
  | [], _ => ([], 0)
  | c :: cs, seen =>
    match c.getAttr "name" with
    | none =>
      let r := dupCore cs seen
      (Issue.missingComponentName :: r.1, r.2 + 10)
    | some n =>
      if n = "" then
        -- `if not comp_name:` also fires on the empty string
        let r := dupCore cs seen
        (Issue.missingComponentName :: r.1, r.2 + 10)
      else if n ∈ seen then
        let r := dupCore cs seen
        (Issue.duplicateComponent n :: r.1,
         r.2 + SCORE_DEDUCTIONS "duplicate_component")
      else
        dupCore cs (seen ++ [n])

/-- `detect_duplicate_config`. -/
def detect_duplicate_config (s : AnalyzerState) : AnalyzerState × List Issue :=
  if !rootTruthy s.root then (s, [])
  else
    match s.root with
    | none => (s, [])
    | some e =>
      let r := dupCore e.components []
      ({ s with score := max 0 (s.score - r.2) }, r.1)

/-- Loop body of `check_version_compatibility`.  The original code has no
branch for a failed `re.search` (the unparseable case is silently skipped),
and the `except ValueError` handler is dead code because `float` cannot fail
on a string matched by `\d+\.\d+`. -/
def compatStep (acc : List Issue × Int) (c : Element) : List Issue × Int :=
  if c.getAttr "name" = some "ProjectRootManager" then
    match c.findJdkOption with
    | some opt =>
      if opt.truthy then
        match opt.getAttr "value" with
        | some v =>
          if v ≠ "" && containsPython v then
            match pyVersionSearch v.toList with
            | some (d1, d2) =>
              if pyVersionTooLow d1 d2 then
                (acc.1 ++ [Issue.pythonVersionTooLow (String.mk d1) (String.mk d2)],
                 acc.2 + SCORE_DEDUCTIONS "python_version_too_low")
              else acc
            | none => acc
          else acc
        | none => acc
      else acc
    | none => acc
  else acc

def compatCore (e : Element) : List Issue × Int :=
  e.components.foldl compatStep ([], 0)

/-- `check_version_compatibility`. -/
def check_version_compatibility (s : AnalyzerState) : AnalyzerState × List Issue :=
  if !rootTruthy s.root then (s, [])
  else
    match s.root with
    | none => (s, [])
    | some e =>
      let r := compatCore e
      ({ s with score := max 0 (s.score - r.2) }, r.1)

/-- `calculate_maintainability_score`: `max(0, min(self.readability_score, 100))`. -/
def calculate_maintainability_score (s : AnalyzerState) : Int :=
  max 0 (min s.score 100)

/-- Grade from a (clamped) score: the `if`/`elif` chain of
`get_maintainability_grade`. -/
def gradeOfScore (score : Int) : String :=
  if score ≥ 90 then "优秀"
  else if score ≥ 70 then "良好"
  else if score ≥ 50 then "一般"
  else "较差"

/-- `get_maintainability_grade`. -/
def get_maintainability_grade (s : AnalyzerState) : String :=
  gradeOfScore (calculate_maintainability_score s)

/-- The data displayed by the report text: final score, grade, issue list. -/
structure ReportData where
  score : Int
  grade : String
  issues : List Issue
deriving Repr

/-- `generate_report`: run the three rule methods in order, extend
`self.issues` with their outputs, then render score, grade and issue list. -/
def generate_report (s : AnalyzerState) : AnalyzerState × ReportData :=
  let r1 := check_config_norm s
  let r2 := detect_duplicate_config r1.1
  let r3 := check_version_compatibility r2.1
  let s' := { r3.1 with issues := r3.1.issues ++ (r1.2 ++ r2.2 ++ r3.2) }
  (s', { score := calculate_maintainability_score s',
         grade := get_maintainability_grade s',
         issues := s'.issues })

end V1

/-! ### Optimized rewrite (`XMLMaintainabilityAnalyzer`, lines 773-1043).
This second class shadows the first at module scope. -/

namespace V2

/-- `_clamp_score`: clamp the running score into `[0, 100]`. -/
def clampScore (x : Int) : Int := max 0 (min x 100)

/-- `load_xml` of the rewrite: missing files return early (before the suffix
check); `PermissionError` gets its own issue; clamping via `_clamp_score`. -/
def load_xml (xmlSuffix : Bool) (outcome : LoadOutcome) (s : AnalyzerState) :
    AnalyzerState :=
  match outcome with
  | .notFound =>
    { s with issues := s.issues ++ [Issue.fileNotFound],
             score := clampScore (s.score - ScoreDeduction.FILE_NOT_FOUND) }
  | _ =>
    let s1 :=
      if xmlSuffix then s
      else { s with issues := s.issues ++ [Issue.nonXmlFile],
                    score := clampScore (s.score - ScoreDeduction.NON_XML_FILE) }
    let s2 :=
      match outcome with
      | .parseError =>
        { s1 with issues := s1.issues ++ [Issue.xmlParseError],
                  score := s1.score - ScoreDeduction.XML_PARSE_ERROR }
      | .permissionError =>
        { s1 with issues := s1.issues ++ [Issue.permissionDenied],
                  score := s1.score - ScoreDeduction.UNKNOWN_LOAD_ERROR }
      | .otherError =>
        { s1 with issues := s1.issues ++ [Issue.unknownLoadError],
                  score := s1.score - ScoreDeduction.UNKNOWN_LOAD_ERROR }
      | _ => { s1 with root := match outcome with | .ok r => some r | _ => s1.root }
    { s2 with score := clampScore s2.score }

/-- Analyzer construction (`__init__` calls `load_xml`). -/
def mkAnalyzer (xmlSuffix : Bool) (outcome : LoadOutcome) : AnalyzerState :=
  load_xml xmlSuffix outcome initState

/-- `_get_project_jdk_value`: first component named `ProjectRootManager`
whose jdk option is truthy (has children) contributes
`jdk_option.get("value")` (which may itself be `None`); the guard
`if not self.root` uses element truthiness. -/
def getProjectJdkValueAux : List Element → Option String
  | [] => none
  | c :: cs =>
    if c.getAttr "name" = some "ProjectRootManager" then
      match c.findJdkOption with
      | some opt =>
        if opt.truthy then opt.getAttr "value" else getProjectJdkValueAux cs
      | none => getProjectJdkValueAux cs
    else getProjectJdkValueAux cs

def getProjectJdkValue (root : Option Element) : Option String :=
  if !rootTruthy root then none
  else
    match root with
    | none => none
    | some e => getProjectJdkValueAux e.components

/-- Issues and total deduction of the body of `check_config_norm` (rewrite):
the version check is unchanged, the SDK check goes through
`_get_project_jdk_value` (so at most one special-characters issue). -/
def normCore (e : Element) (root : Option Element) : List Issue × Int :=
  let versionPart : List Issue × Int :=
    match e.getAttr "version" with
    | some v =>
      if v ≠ "" && !matchesVersionPattern v then
        ([Issue.invalidVersionFormat v], ScoreDeduction.INVALID_VERSION_FORMAT)
      else ([], 0)
    | none => ([], 0)
  let sdkPart : List Issue × Int :=
    match getProjectJdkValue root with
    | some v =>
      if v ≠ "" && hasSpecialChar v then
        ([Issue.sdkSpecialChars v], ScoreDeduction.SDK_SPECIAL_CHARS)
      else ([], 0)
    | none => ([], 0)
  (versionPart.1 ++ sdkPart.1, versionPart.2 + sdkPart.2)

/-- `check_config_norm` (rewrite). -/
def check_config_norm (s : AnalyzerState) : AnalyzerState × List Issue :=
  if !rootTruthy s.root then (s, [])
  else
    match s.root with
    | none => (s, [])
    | some e =>
      let r := normCore e s.root
      ({ s with score := clampScore (s.score - r.2) }, r.1)

/-- `detect_duplicate_config` (rewrite): the loop is the same as the
original's (`V1.dupCore`), message wording apart; the deduction for a
nameless component is the named constant `EMPTY_COMPONENT_NAME = 10`. -/
def detect_duplicate_config (s : AnalyzerState) : AnalyzerState × List Issue :=
  if !rootTruthy s.root then (s, [])
  else
    match s.root with
    | none => (s, [])
    | some e =>
      let r := V1.dupCore e.components []
      ({ s with score := clampScore (s.score - r.2) }, r.1)

/-- `check_version_compatibility` (rewrite): locates the jdk value through
`_get_project_jdk_value`, returns early (unclamped) when the value is absent,
empty, or does not contain `"Python"`; a failed `re.search` now records an
unparseable-version issue; the `except ValueError` branch stays dead. -/
def check_version_compatibility (s : AnalyzerState) : AnalyzerState × List Issue :=
  match getProjectJdkValue s.root with
  | none => (s, [])
  | some v =>
    if v = "" || !containsPython v then (s, [])
    else
      match pyVersionSearch v.toList with
      | none =>
        ({ s with score := clampScore (s.score - ScoreDeduction.INVALID_PYTHON_VERSION_PARSE) },
         [Issue.unparseablePythonVersion v])
      | some (d1, d2) =>
        if pyVersionTooLow d1 d2 then
          ({ s with score := clampScore (s.score - ScoreDeduction.PYTHON_VERSION_TOO_LOW) },
           [Issue.pythonVersionTooLow (String.mk d1) (String.mk d2)])
        else
          ({ s with score := clampScore s.score }, [])

/-- `calculate_maintainability_score` (rewrite): clamps the stored score and
returns it. -/
def calculate_maintainability_score (s : AnalyzerState) : Int :=
  clampScore s.score

/-- `MAINTAINABILITY_GRADES` constant table. -/
def MAINTAINABILITY_GRADES : List (Int × String) :=
  [(90, "优秀"), (70, "良好"), (50, "一般"), (0, "较差")]

/-- Threshold walk of `get_maintainability_grade` with its fallback. -/
def gradeFromTable (score : Int) : List (Int × String) → String
  | [] => "较差"
  | (t, g) :: rest => if score ≥ t then g else gradeFromTable score rest

def gradeOfScore (score : Int) : String :=
  gradeFromTable score MAINTAINABILITY_GRADES

/-- `get_maintainability_grade` (rewrite). -/
def get_maintainability_grade (s : AnalyzerState) : String :=
  gradeOfScore (calculate_maintainability_score s)

/-- `generate_report` (rewrite): same rule order and issue extension as the
original; `calculate_maintainability_score` also stores the clamped score
back into the state. -/
def generate_report (s : AnalyzerState) : AnalyzerState × V1.ReportData :=
  let r1 := check_config_norm s
  let r2 := detect_duplicate_config r1.1
  let r3 := check_version_compatibility r2.1
  let s' := { r3.1 with issues := r3.1.issues ++ (r1.2 ++ r2.2 ++ r3.2) }
  let s'' := { s' with score := clampScore s'.score }
  (s'', { score := calculate_maintainability_score s',
          grade := get_maintainability_grade s',
          issues := s'.issues })

end V2

/-! ### Rule-evaluation sequences -/

/-- One caller-visible operation on an analyzer: re-running `load_xml`, or
invoking one of the three rule methods (their returned lists are discarded
here; `generate_report` is modelled separately). -/
inductive RuleStep where
  | load (xmlSuffix : Bool) (outcome : LoadOutcome)
  | norm
  | dup
  | compat

def stepV1 : RuleStep → AnalyzerState → AnalyzerState
  | .load x o, s => V1.load_xml x o s
  | .norm, s => (V1.check_config_norm s).1
  | .dup, s => (V1.detect_duplicate_config s).1
  | .compat, s => (V1.check_version_compatibility s).1

def runV1 (steps : List RuleStep) (s : AnalyzerState) : AnalyzerState :=
  steps.foldl (fun st p => stepV1 p st) s

def stepV2 : RuleStep → AnalyzerState → AnalyzerState
  | .load x o, s => V2.load_xml x o s
  | .norm, s => (V2.check_config_norm s).1
  | .dup, s => (V2.detect_duplicate_config s).1
  | .compat, s => (V2.check_version_compatibility s).1

def runV2 (steps : List RuleStep) (s : AnalyzerState) : AnalyzerState :=
  steps.foldl (fun st p => stepV2 p st) s

/-! ### Shared helper lemmas -/

theorem clamp_mem_interval (x : Int) : 0 ≤ max 0 (min x 100) ∧ max 0 (min x 100) ≤ 100 :=
  ⟨le_max_left 0 _, max_le (by norm_num) (min_le_right x 100)⟩

theorem V1_norm_root_none {s : AnalyzerState} (h : s.root = none) :
    V1.check_config_norm s = (s, []) := by
  simp [V1.check_config_norm, rootTruthy, h]

theorem V1_dup_root_none {s : AnalyzerState} (h : s.root = none) :
    V1.detect_duplicate_config s = (s, []) := by
  simp [V1.detect_duplicate_config, rootTruthy, h]

theorem V1_compat_root_none {s : AnalyzerState} (h : s.root = none) :
    V1.check_version_compatibility s = (s, []) := by
  simp [V1.check_version_compatibility, rootTruthy, h]

theorem V2_jdk_root_none {s : AnalyzerState} (h : s.root = none) :
    V2.getProjectJdkValue s.root = none := by
  simp [V2.getProjectJdkValue, rootTruthy, h]

theorem V2_norm_root_none {s : AnalyzerState} (h : s.root = none) :
    V2.check_config_norm s = (s, []) := by
  simp [V2.check_config_norm, rootTruthy, h]

theorem V2_dup_root_none {s : AnalyzerState} (h : s.root = none) :
    V2.detect_duplicate_config s = (s, []) := by
  simp [V2.detect_duplicate_config, rootTruthy, h]

theorem V2_compat_root_none {s : AnalyzerState} (h : s.root = none) :
    V2.check_version_compatibility s = (s, []) := by
  simp [V2.check_version_compatibility, V2_jdk_root_none h]

/-! ### Concrete documents used by several penalties at once -/

/-- A jdk option whose value trips the special-character check, matches
`Python (\d+\.\d+)` with a version below 3.8, and which has a child element
(so that the `if jdk_option:` truthiness test passes). -/
def jdkOptionBad : Element :=
  { tag := "option",
    attrs := [("name", "project-jdk-name"), ("value", "Python 2.7!")],
    children := [{ tag := "x", attrs := [], children := [] }] }

def prmComponentBad : Element :=
  { tag := "component", attrs := [("name", "ProjectRootManager")],
    children := [jdkOptionBad] }

def namelessComponent : Element :=
  { tag := "component", attrs := [], children := [] }

/-- A document firing the version-format, special-characters, duplicate,
missing-name and version-too-low penalties all at once. -/
def allPenaltyDoc : Element :=
  { tag := "project", attrs := [("version", "1.0.0")],
    children := [prmComponentBad, prmComponentBad, namelessComponent] }

/-- Running every rule twice on `allPenaltyDoc` stacks deductions past 100. -/
def allPenaltySteps : List RuleStep :=
  [.norm, .dup, .compat, .norm, .dup, .compat]

/-! ### Claim theorems -/

/-- C1: for every analyzer instance (any load result) and every sequence of
rule evaluations, in both the original class and the rewrite, the value
returned by `calculate_maintainability_score` lies in `[0, 100]`; moreover on
a concrete run whose stacked deductions sum past 100 (the `allPenaltyDoc`
document with every rule run twice deducts 2 × 90 = 180 in the original and
2 × 65 = 130 in the rewrite) the returned score is exactly 0, not negative. -/
theorem claim_C1_score_always_clamped :
    (∀ (xmlSuffix : Bool) (outcome : LoadOutcome) (steps : List RuleStep),
      0 ≤ V1.calculate_maintainability_score
            (runV1 steps (V1.mkAnalyzer xmlSuffix outcome)) ∧
      V1.calculate_maintainability_score
            (runV1 steps (V1.mkAnalyzer xmlSuffix outcome)) ≤ 100 ∧
      0 ≤ V2.calculate_maintainability_score
            (runV2 steps (V2.mkAnalyzer xmlSuffix outcome)) ∧
      V2.calculate_maintainability_score
            (runV2 steps (V2.mkAnalyzer xmlSuffix outcome)) ≤ 100) ∧
    2 * ((V1.normCore allPenaltyDoc).2 + (V1.dupCore allPenaltyDoc.components []).2
          + (V1.compatCore allPenaltyDoc).2) > 100 ∧
    V1.calculate_maintainability_score
        (runV1 allPenaltySteps (V1.mkAnalyzer true (.ok allPenaltyDoc))) = 0 ∧
    V2.calculate_maintainability_score
        (runV2 allPenaltySteps (V2.mkAnalyzer true (.ok allPenaltyDoc))) = 0 := by
  refine ⟨fun xmlSuffix outcome steps => ?_, by decide, by decide, by decide⟩
  obtain ⟨h1, h2⟩ := clamp_mem_interval (runV1 steps (V1.mkAnalyzer xmlSuffix outcome)).score
  obtain ⟨h3, h4⟩ := clamp_mem_interval (runV2 steps (V2.mkAnalyzer xmlSuffix outcome)).score
  exact ⟨h1, h2, h3, h4⟩

/-- C5: on an analyzer whose document failed to load (`self.root` is unset),
each rule method — `check_config_norm` (covering the version-format and SDK
naming rules), `detect_duplicate_config` and `check_version_compatibility` —
of both the original class and the rewrite returns an empty issue list and
leaves the state unchanged (and, being a total Lean function, cannot raise). -/
theorem claim_C5_rules_noop_on_unset_root (s : AnalyzerState) (h : s.root = none) :
    V1.check_config_norm s = (s, []) ∧
    V1.detect_duplicate_config s = (s, []) ∧
    V1.check_version_compatibility s = (s, []) ∧
    V2.check_config_norm s = (s, []) ∧
    V2.detect_duplicate_config s = (s, []) ∧
    V2.check_version_compatibility s = (s, []) :=
  ⟨V1_norm_root_none h, V1_dup_root_none h, V1_compat_root_none h,
   V2_norm_root_none h, V2_dup_root_none h, V2_compat_root_none h⟩

/-- Witness for C5: a freshly constructed analyzer on a missing file has an
unset root, and all six rule evaluations no-op on it. -/
theorem claim_C5_witness :
    V1.check_config_norm (V1.mkAnalyzer true .notFound) = (V1.mkAnalyzer true .notFound, []) ∧
    V1.detect_duplicate_config (V1.mkAnalyzer true .notFound) = (V1.mkAnalyzer true .notFound, []) ∧
    V1.check_version_compatibility (V1.mkAnalyzer true .notFound) = (V1.mkAnalyzer true .notFound, []) ∧
    V2.check_config_norm (V1.mkAnalyzer true .notFound) = (V1.mkAnalyzer true .notFound, []) ∧
    V2.detect_duplicate_config (V1.mkAnalyzer true .notFound) = (V1.mkAnalyzer true .notFound, []) ∧
    V2.check_version_compatibility (V1.mkAnalyzer true .notFound) = (V1.mkAnalyzer true .notFound, []) :=
  claim_C5_rules_noop_on_unset_root (V1.mkAnalyzer true .notFound) (by rfl)

/-- C2 counterexample: on a nonexistent path whose suffix is not `.xml`, the
original class's report has score 40, not `100 - FILE_NOT_FOUND_PENALTY = 50`
(the suffix warning deducted 10 more before the parse attempt failed). -/
theorem claim_C2_counterexample :
    (V1.generate_report (V1.mkAnalyzer false .notFound)).2.score = 40 ∧
    (V1.generate_report (V1.mkAnalyzer false .notFound)).2.score ≠
      100 - SCORE_DEDUCTIONS "file_not_found" ∧
    (V1.generate_report (V1.mkAnalyzer false .notFound)).2.issues =
      [Issue.nonXmlFile, Issue.fileNotFound] := by
  refine ⟨by decide, by decide, by decide⟩

/-- C2 amended: for a nonexistent path, the rewritten analyzer's report
always has score `100 - FILE_NOT_FOUND = 50` and exactly the one
file-not-found issue, with all rule checks producing zero issues; the
original class satisfies the same statement when the path's suffix is
`.xml`, and otherwise additionally records the non-XML naming warning first
and scores 10 lower. -/
theorem claim_C2_missing_file_report (xmlSuffix : Bool) :
    (V2.generate_report (V2.mkAnalyzer xmlSuffix .notFound)).2.score =
      100 - ScoreDeduction.FILE_NOT_FOUND ∧
    (V2.generate_report (V2.mkAnalyzer xmlSuffix .notFound)).2.issues =
      [Issue.fileNotFound] ∧
    (V2.check_config_norm (V2.mkAnalyzer xmlSuffix .notFound)).2 = [] ∧
    (V2.detect_duplicate_config (V2.mkAnalyzer xmlSuffix .notFound)).2 = [] ∧
    (V2.check_version_compatibility (V2.mkAnalyzer xmlSuffix .notFound)).2 = [] ∧
    (V1.generate_report (V1.mkAnalyzer true .notFound)).2.score =
      100 - SCORE_DEDUCTIONS "file_not_found" ∧
    (V1.generate_report (V1.mkAnalyzer true .notFound)).2.issues =
      [Issue.fileNotFound] ∧
    (V1.generate_report (V1.mkAnalyzer false .notFound)).2.score =
      100 - SCORE_DEDUCTIONS "file_not_found" - 10 ∧
    (V1.generate_report (V1.mkAnalyzer false .notFound)).2.issues =
      [Issue.nonXmlFile, Issue.fileNotFound] := by
  cases xmlSuffix <;> exact ⟨by decide, by decide, by decide, by decide, by decide,
    by decide, by decide, by decide, by decide⟩

/-- Witness for C2's amended theorem at the concrete suffix `true`. -/
theorem claim_C2_missing_file_report_witness :
    (V2.generate_report (V2.mkAnalyzer true .notFound)).2.score =
      100 - ScoreDeduction.FILE_NOT_FOUND ∧
    (V2.generate_report (V2.mkAnalyzer true .notFound)).2.issues =
      [Issue.fileNotFound] :=
  ⟨(claim_C2_missing_file_report true).1, (claim_C2_missing_file_report true).2.1⟩

/-! ### Concrete documents for the version-compatibility claims -/

/-- A self-closing jdk option, `<option name="project-jdk-name" value=v />`,
the form IDE `misc.xml` files actually contain; it has no children, so its
Python truth value is `False`. -/
def selfClosingJdkOption (v : String) : Element :=
  { tag := "option", attrs := [("name", "project-jdk-name"), ("value", v)],
    children := [] }

/-- A jdk option with one child element, so its Python truth value is `True`. -/
def childBearingJdkOption (v : String) : Element :=
  { tag := "option", attrs := [("name", "project-jdk-name"), ("value", v)],
    children := [{ tag := "x", attrs := [], children := [] }] }

def prmComponentWith (opt : Element) : Element :=
  { tag := "component", attrs := [("name", "ProjectRootManager")],
    children := [opt] }

def projectWith (opt : Element) : Element :=
  { tag := "project", attrs := [], children := [prmComponentWith opt] }

/-- C3: evaluation of both implementations at the inputs the claim describes.
With the jdk value `"Python 3.10"` (option made truthy by a child element)
both record a version-too-low issue, because `float("3.10")` is the number
3.1, which is below the 3.8 threshold — the claim says no issue may be
recorded.  With the value `"Python 3.6"` in the usual self-closing option
form, both record nothing, because `if jdk_option:` tests element truthiness
(has-children), not presence — the claim says a version-too-low issue must
be recorded.  With a child-bearing option, `"Python 3.6"` is flagged. -/
theorem claim_C3_version_compat_divergence :
    (V1.check_version_compatibility
        (V1.mkAnalyzer true (.ok (projectWith (childBearingJdkOption "Python 3.10"))))).2 =
      [Issue.pythonVersionTooLow "3" "10"] ∧
    (V2.check_version_compatibility
        (V2.mkAnalyzer true (.ok (projectWith (childBearingJdkOption "Python 3.10"))))).2 =
      [Issue.pythonVersionTooLow "3" "10"] ∧
    pyVersionTooLow "3".toList "10".toList = true ∧
    (V1.check_version_compatibility
        (V1.mkAnalyzer true (.ok (projectWith (selfClosingJdkOption "Python 3.6"))))).2 = [] ∧
    (V2.check_version_compatibility
        (V2.mkAnalyzer true (.ok (projectWith (selfClosingJdkOption "Python 3.6"))))).2 = [] ∧
    (V1.check_version_compatibility
        (V1.mkAnalyzer true (.ok (projectWith (childBearingJdkOption "Python 3.6"))))).2 =
      [Issue.pythonVersionTooLow "3" "6"] ∧
    (V2.check_version_compatibility
        (V2.mkAnalyzer true (.ok (projectWith (childBearingJdkOption "Python 3.6"))))).2 =
      [Issue.pythonVersionTooLow "3" "6"] := by
  exact ⟨by decide, by decide, by decide, by decide, by decide, by decide, by decide⟩

/-! ### Decomposition lemmas for the original class's component folds -/

theorem compatStep_decompose (acc : List Issue × Int) (c : Element) :
    V1.compatStep acc c =
      (acc.1 ++ (V1.compatStep ([], 0) c).1, acc.2 + (V1.compatStep ([], 0) c).2) := by
  unfold V1.compatStep
  repeat' split
  all_goals simp

theorem compatStep_kind (c : Element) :
    ∀ i ∈ (V1.compatStep ([], 0) c).1, i.kind = IssueKind.pythonVersionTooLow := by
  intro i hi
  unfold V1.compatStep at hi
  repeat' split at hi
  all_goals simp_all
  all_goals (subst hi; rfl)

theorem compatFold_kind :
    ∀ (l : List Element) (acc : List Issue × Int),
      (∀ i ∈ acc.1, i.kind = IssueKind.pythonVersionTooLow) →
      ∀ i ∈ (l.foldl V1.compatStep acc).1, i.kind = IssueKind.pythonVersionTooLow := by
  intro l
  induction l with
  | nil => intro acc h i hi; exact h i hi
  | cons c cs ih =>
    intro acc h i hi
    refine ih (V1.compatStep acc c) ?_ i hi
    rw [compatStep_decompose]
    intro j hj
    rcases List.mem_append.mp hj with hj | hj
    · exact h j hj
    · exact compatStep_kind c j hj

/-- The original `check_version_compatibility` can only produce
version-too-low issues: the unparseable case is silently skipped. -/
theorem V1_compat_only_too_low (s : AnalyzerState) :
    ∀ i ∈ (V1.check_version_compatibility s).2, i.kind = IssueKind.pythonVersionTooLow := by
  unfold V1.check_version_compatibility
  split
  · intro i hi; simp at hi
  · split
    · intro i hi; simp at hi
    · exact compatFold_kind _ ([], 0) (by intro i hi; simp at hi)

/-- C4 counterexample: a loaded document whose located SDK value is
`"Python three"` — it contains `"Python"` and no `Python d.d` version can be
extracted — yet the original class's `check_version_compatibility` records
no issue at all and deducts nothing. -/
theorem claim_C4_counterexample :
    V2.getProjectJdkValue
        (V1.mkAnalyzer true (.ok (projectWith (childBearingJdkOption "Python three")))).root =
      some "Python three" ∧
    containsPython "Python three" = true ∧
    pyVersionSearch "Python three".toList = none ∧
    (V1.check_version_compatibility
        (V1.mkAnalyzer true (.ok (projectWith (childBearingJdkOption "Python three"))))).2 = [] ∧
    (V1.check_version_compatibility
        (V1.mkAnalyzer true (.ok (projectWith (childBearingJdkOption "Python three"))))).1.score =
      (V1.mkAnalyzer true (.ok (projectWith (childBearingJdkOption "Python three")))).score := by
  exact ⟨by decide, by decide, by decide, by decide, by decide⟩

/-- C4 amended: when the located SDK-name value contains `"Python"` but no
`Python d.d` version can be extracted, the rewritten analyzer's
`check_version_compatibility` records exactly one unparseable-version issue
and deducts `INVALID_PYTHON_VERSION_PARSE`; the original class's check
records no issue of that kind in any situation (every issue it can produce
is a version-too-low issue). -/
theorem claim_C4_unparseable_version (s : AnalyzerState) (v : String)
    (h1 : V2.getProjectJdkValue s.root = some v) (h2 : v ≠ "")
    (h3 : containsPython v = true) (h4 : pyVersionSearch v.toList = none) :
    V2.check_version_compatibility s =
      ({ s with score := V2.clampScore (s.score - ScoreDeduction.INVALID_PYTHON_VERSION_PARSE) },
       [Issue.unparseablePythonVersion v]) ∧
    ∀ i ∈ (V1.check_version_compatibility s).2, i.kind ≠ IssueKind.unparseablePythonVersion := by
  constructor
  · have h4d : pyVersionSearch v.data = none := h4
    unfold V2.check_version_compatibility
    rw [h1]
    simp [h2, h3, h4d]
  · intro i hi
    rw [V1_compat_only_too_low s i hi]
    intro hcontra
    exact absurd hcontra (by decide)

def unparseableDoc : Element := projectWith (childBearingJdkOption "Python three")

/-- Witness for C4's amended theorem on a concrete loaded document. -/
theorem claim_C4_unparseable_version_witness :
    V2.check_version_compatibility (V2.mkAnalyzer true (.ok unparseableDoc)) =
      ({ V2.mkAnalyzer true (.ok unparseableDoc) with
          score := V2.clampScore ((V2.mkAnalyzer true (.ok unparseableDoc)).score -
            ScoreDeduction.INVALID_PYTHON_VERSION_PARSE) },
       [Issue.unparseablePythonVersion "Python three"]) ∧
    ∀ i ∈ (V1.check_version_compatibility (V2.mkAnalyzer true (.ok unparseableDoc))).2,
      i.kind ≠ IssueKind.unparseablePythonVersion :=
  claim_C4_unparseable_version (V2.mkAnalyzer true (.ok unparseableDoc)) "Python three"
    (by rfl) (by decide) (by rfl) (by rfl)

/-- C6: the grade is a deterministic, total function of the clamped score
(`get_maintainability_grade` applies `gradeOfScore` to the result of
`calculate_maintainability_score` in both classes, and the rewrite's
threshold-table walk agrees with the original's `if`/`elif` chain on every
integer); the boundaries are inclusive and descending: 90 is the top label,
89 and 70 the second, 69 and 50 the third, 49 the fourth; and every score in
`[0, 100]` maps to one of the four labels. -/
theorem claim_C6_grade_total_function :
    V1.gradeOfScore 90 = "优秀" ∧ V1.gradeOfScore 89 = "良好" ∧
    V1.gradeOfScore 70 = "良好" ∧ V1.gradeOfScore 69 = "一般" ∧
    V1.gradeOfScore 50 = "一般" ∧ V1.gradeOfScore 49 = "较差" ∧
    (∀ sc : Int, 0 ≤ sc → sc ≤ 100 →
      (V1.gradeOfScore sc = "优秀" ∨ V1.gradeOfScore sc = "良好" ∨
       V1.gradeOfScore sc = "一般" ∨ V1.gradeOfScore sc = "较差")) ∧
    (∀ sc : Int, V2.gradeOfScore sc = V1.gradeOfScore sc) ∧
    (∀ s : AnalyzerState,
      V1.get_maintainability_grade s =
        V1.gradeOfScore (V1.calculate_maintainability_score s) ∧
      V2.get_maintainability_grade s =
        V2.gradeOfScore (V2.calculate_maintainability_score s)) := by
  refine ⟨by decide, by decide, by decide, by decide, by decide, by decide, ?_, ?_, ?_⟩
  · intro sc _ _
    unfold V1.gradeOfScore
    split_ifs <;> simp
  · intro sc
    simp only [V2.gradeOfScore, V2.MAINTAINABILITY_GRADES, V2.gradeFromTable, V1.gradeOfScore]
    split_ifs <;> rfl
  · intro s
    exact ⟨rfl, rfl⟩

/-- Witness for C6 at the concrete score 75 (second label). -/
theorem claim_C6_grade_total_function_witness :
    V1.gradeOfScore 75 = "优秀" ∨ V1.gradeOfScore 75 = "良好" ∨
    V1.gradeOfScore 75 = "一般" ∨ V1.gradeOfScore 75 = "较差" :=
  claim_C6_grade_total_function.2.2.2.2.2.2.1 75 (by decide) (by decide)

/-! ### The SDK-naming part of `check_config_norm` produces only
special-characters issues -/

theorem normSdkStep_decompose (acc : List Issue × Int) (c : Element) :
    V1.normSdkStep acc c =
      (acc.1 ++ (V1.normSdkStep ([], 0) c).1, acc.2 + (V1.normSdkStep ([], 0) c).2) := by
  unfold V1.normSdkStep
  repeat' split
  all_goals simp

theorem normSdkStep_kind (c : Element) :
    ∀ i ∈ (V1.normSdkStep ([], 0) c).1, i.kind = IssueKind.sdkSpecialChars := by
  intro i hi
  unfold V1.normSdkStep at hi
  repeat' split at hi
  all_goals simp_all
  all_goals (subst hi; rfl)

theorem normSdkFold_kind :
    ∀ (l : List Element) (acc : List Issue × Int),
      (∀ i ∈ acc.1, i.kind = IssueKind.sdkSpecialChars) →
      ∀ i ∈ (l.foldl V1.normSdkStep acc).1, i.kind = IssueKind.sdkSpecialChars := by
  intro l
  induction l with
  | nil => intro acc h i hi; exact h i hi
  | cons c cs ih =>
    intro acc h i hi
    refine ih (V1.normSdkStep acc c) ?_ i hi
    rw [normSdkStep_decompose]
    intro j hj
    rcases List.mem_append.mp hj with hj | hj
    · exact h j hj
    · exact normSdkStep_kind c j hj

/-- C7 counterexample: the document `<project version="3.8.1"/>` loads
successfully and its root carries the non-matching version attribute
`"3.8.1"`, yet neither implementation's `check_config_norm` records a format
issue — `if not self.root:` tests element truthiness and a childless root is
falsy, so the rule body never runs. -/
theorem claim_C7_counterexample :
    (V1.mkAnalyzer true
        (.ok { tag := "project", attrs := [("version", "3.8.1")], children := [] })).root =
      some { tag := "project", attrs := [("version", "3.8.1")], children := [] } ∧
    Element.getAttr { tag := "project", attrs := [("version", "3.8.1")], children := [] }
        "version" = some "3.8.1" ∧
    matchesVersionPattern "3.8.1" = false ∧
    (V1.check_config_norm (V1.mkAnalyzer true
        (.ok { tag := "project", attrs := [("version", "3.8.1")], children := [] }))).2 = [] ∧
    (V2.check_config_norm (V2.mkAnalyzer true
        (.ok { tag := "project", attrs := [("version", "3.8.1")], children := [] }))).2 = [] :=
  ⟨rfl, by decide, by decide, by decide, by decide⟩

/-- C7 amended: for every loaded document whose root element has at least one
child (so that the truthiness guard lets the rule run), both implementations
record a format issue for value `v` exactly when the root's `version`
attribute is present with the non-empty value `v` that fails
`^\d+(\.\d+)?$`; and concretely `"3.8.1"` fails the pattern while `"3.8"`
and `"4"` match it. -/
theorem claim_C7_version_format_rule (e : Element) (s : AnalyzerState)
    (hroot : s.root = some e) (hch : e.truthy = true) :
    (∀ v, Issue.invalidVersionFormat v ∈ (V1.check_config_norm s).2 ↔
      (e.getAttr "version" = some v ∧ v ≠ "" ∧ matchesVersionPattern v = false)) ∧
    (∀ v, Issue.invalidVersionFormat v ∈ (V2.check_config_norm s).2 ↔
      (e.getAttr "version" = some v ∧ v ≠ "" ∧ matchesVersionPattern v = false)) ∧
    matchesVersionPattern "3.8.1" = false ∧
    matchesVersionPattern "3.8" = true ∧
    matchesVersionPattern "4" = true := by
  have hv1 : (V1.check_config_norm s).2 =
      (V1.normCore e).1 := by
    unfold V1.check_config_norm
    rw [hroot]
    simp [rootTruthy, hch]
  have hv2 : (V2.check_config_norm s).2 =
      (V2.normCore e s.root).1 := by
    unfold V2.check_config_norm
    rw [hroot]
    simp [rootTruthy, hch, hroot]
  refine ⟨?_, ?_, by decide, by decide, by decide⟩
  · intro v
    rw [hv1]
    unfold V1.normCore
    constructor
    · intro hmem
      rcases List.mem_append.mp hmem with hmem | hmem
      · revert hmem
        split
        · split
          · intro hmem
            simp only [List.mem_singleton] at hmem
            cases hmem
            rename_i hva hiff
            refine ⟨hva, ?_, ?_⟩
            · intro hcontra
              simp [hcontra] at hiff
            · rcases Bool.and_eq_true .. |>.mp hiff with ⟨_, hnm⟩
              simpa using hnm
          · intro hmem; simp at hmem
        · intro hmem; simp at hmem
      · exact absurd (normSdkFold_kind _ ([], 0) (by intro i hi; simp at hi) _ hmem)
          (by simp [Issue.kind])
    · rintro ⟨hva, hne, hnm⟩
      apply List.mem_append.mpr
      left
      rw [hva]
      simp [hne, hnm]
  · intro v
    rw [hv2]
    unfold V2.normCore
    constructor
    · intro hmem
      rcases List.mem_append.mp hmem with hmem | hmem
      · revert hmem
        split
        · split
          · intro hmem
            simp only [List.mem_singleton] at hmem
            cases hmem
            rename_i hva hiff
            refine ⟨hva, ?_, ?_⟩
            · intro hcontra
              simp [hcontra] at hiff
            · rcases Bool.and_eq_true .. |>.mp hiff with ⟨_, hnm⟩
              simpa using hnm
          · intro hmem; simp at hmem
        · intro hmem; simp at hmem
      · revert hmem
        split
        · split
          · intro hmem
            simp only [List.mem_singleton] at hmem
            cases hmem
          · intro hmem; simp at hmem
        · intro hmem; simp at hmem
    · rintro ⟨hva, hne, hnm⟩
      apply List.mem_append.mpr
      left
      rw [hva]
      simp [hne, hnm]

/-- Witness for C7's amended theorem on a concrete loaded document with a
child-bearing root and the failing version attribute `"1.0.0"`. -/
theorem claim_C7_version_format_rule_witness :
    Issue.invalidVersionFormat "1.0.0" ∈
      (V1.check_config_norm (V1.mkAnalyzer true (.ok allPenaltyDoc))).2 ↔
      (allPenaltyDoc.getAttr "version" = some "1.0.0" ∧ "1.0.0" ≠ "" ∧
       matchesVersionPattern "1.0.0" = false) :=
  (claim_C7_version_format_rule allPenaltyDoc
    (V1.mkAnalyzer true (.ok allPenaltyDoc)) (by rfl) (by rfl)).1 "1.0.0"

/-! ### Characterization of the duplicate-configuration rule -/

/-- Both duplicate detectors run the same loop over `root.findall("component")`;
when the root is falsy the component list is empty, so the loop output
describes the issue list in every case. -/
theorem V1_dup_issues_eq (s : AnalyzerState) (e : Element) (hroot : s.root = some e) :
    (V1.detect_duplicate_config s).2 = (V1.dupCore e.components []).1 := by
  unfold V1.detect_duplicate_config
  rw [hroot]
  by_cases ht : e.truthy
  · simp [rootTruthy, ht]
  · have hch : e.children = [] := by
      unfold Element.truthy at ht
      simpa using ht
    simp [rootTruthy, Element.truthy, hch, Element.components, V1.dupCore]

theorem V2_dup_issues_eq (s : AnalyzerState) (e : Element) (hroot : s.root = some e) :
    (V2.detect_duplicate_config s).2 = (V1.dupCore e.components []).1 := by
  unfold V2.detect_duplicate_config
  rw [hroot]
  by_cases ht : e.truthy
  · simp [rootTruthy, ht]
  · have hch : e.children = [] := by
      unfold Element.truthy at ht
      simpa using ht
    simp [rootTruthy, Element.truthy, hch, Element.components, V1.dupCore]

/-- Count of duplicate issues for a fixed non-empty name `n` produced by the
loop of `detect_duplicate_config`: every occurrence of `n` whose name was
already seen is flagged, so with `k` occurrences in the list the loop emits
`k` duplicate issues when `n` starts out in `component_names` and `k - 1`
when it does not (the first occurrence is recorded, not flagged). -/
theorem dupCore_count_dup (n : String) (hne : n ≠ "") :
    ∀ (l : List Element) (seen : List String),
    ((V1.dupCore l seen).1.count (Issue.duplicateComponent n) =
      if n ∈ seen then l.countP (fun c => c.getAttr "name" == some n)
      else l.countP (fun c => c.getAttr "name" == some n) - 1) := by
  intro l
  induction l with
  | nil =>
    intro seen
    simp [V1.dupCore]
  | cons c cs ih =>
    intro seen
    cases hc : c.getAttr "name" with
    | none =>
      simp only [V1.dupCore, hc, List.countP_cons, List.count_cons, ih seen]
      by_cases hns : n ∈ seen <;>
        simp [hns, hc]
    | some m =>
      by_cases hme : m = ""
      · subst hme
        have hen : ¬"" = n := fun h => hne h.symm
        simp only [V1.dupCore, hc, if_pos rfl, if_true, List.countP_cons,
          List.count_cons, ih seen]
        by_cases hns : n ∈ seen <;>
          simp [hns, hen]
      · by_cases hmem : m ∈ seen
        · by_cases hmn : m = n
          · subst hmn
            simp only [V1.dupCore, hc, if_neg hme, if_pos hmem, List.countP_cons,
              List.count_cons, ih seen]
            simp [hmem]
          · have hmn' : ¬n = m := fun h => hmn h.symm
            simp only [V1.dupCore, hc, if_neg hme, if_pos hmem, List.countP_cons,
              List.count_cons, ih seen]
            by_cases hns : n ∈ seen <;>
              simp [hns, hmn, hmn']
        · by_cases hmn : m = n
          · subst hmn
            have hmem' : m ∈ seen ++ [m] := by simp
            simp only [V1.dupCore, hc, if_neg hme, if_neg hmem, List.countP_cons,
              List.count_cons, ih (seen ++ [m]), if_pos hmem', if_neg hmem]
            simp
          · have hmn' : ¬n = m := fun h => hmn h.symm
            have hiff : (n ∈ seen ++ [m]) = (n ∈ seen) := by
              simp [List.mem_append, hmn']
            simp only [V1.dupCore, hc, if_neg hme, if_neg hmem, List.countP_cons,
              List.count_cons, ih (seen ++ [m]), hiff]
            by_cases hns : n ∈ seen <;>
              simp [hns, hmn, hmn']

/-- Count of missing-name issues: one per component whose `name` attribute is
absent or empty (Python's `if not comp_name:`). -/
theorem dupCore_count_missing :
    ∀ (l : List Element) (seen : List String),
    (V1.dupCore l seen).1.count Issue.missingComponentName =
      l.countP (fun c => decide (c.getAttr "name" = none ∨ c.getAttr "name" = some "")) := by
  intro l
  induction l with
  | nil => intro seen; simp [V1.dupCore]
  | cons c cs ih =>
    intro seen
    cases hc : c.getAttr "name" with
    | none =>
      simp only [V1.dupCore, hc, List.countP_cons, List.count_cons, ih seen]
      simp [hc]
    | some m =>
      by_cases hme : m = ""
      · subst hme
        simp only [V1.dupCore, hc, if_pos rfl, if_true, List.countP_cons,
          List.count_cons, ih seen]
        simp [hc]
      · by_cases hmem : m ∈ seen
        · simp only [V1.dupCore, hc, if_neg hme, if_pos hmem, List.countP_cons,
            List.count_cons, ih seen]
          simp [hc, hme]
        · simp only [V1.dupCore, hc, if_neg hme, if_neg hmem, List.countP_cons,
            List.count_cons, ih (seen ++ [m])]
          simp [hc, hme]

/-- C8: duplicate detection in one pass over the components in document
order, for every loaded document (both implementations run the identical
loop).  Conjuncts: (1) the two implementations emit the same issue list;
(2) a name occurring `k` times yields exactly `k - 1` duplicate issues, so
the first occurrence is never flagged and every later occurrence is;
(3) positionally: if `c` is the first component carrying name `n`, the
duplicate issues for `n` count exactly the occurrences after `c`;
(4) exactly one missing-name issue per component whose `name` attribute is
absent or empty, and such entries never contribute to duplicate tracking
(the counts in (2)-(3) range over named components only); (5) a document
with exactly two top-level entries sharing a non-empty name yields precisely
the one duplicate issue naming it. -/
theorem claim_C8_duplicate_rule (e : Element) (s : AnalyzerState) (hroot : s.root = some e) :
    ((V1.detect_duplicate_config s).2 = (V2.detect_duplicate_config s).2) ∧
    (∀ n : String, n ≠ "" →
      (V1.detect_duplicate_config s).2.count (Issue.duplicateComponent n) =
        e.components.countP (fun c => c.getAttr "name" == some n) - 1) ∧
    (∀ (pre : List Element) (c : Element) (post : List Element) (n : String),
      e.components = pre ++ c :: post → c.getAttr "name" = some n → n ≠ "" →
      (∀ b ∈ pre, b.getAttr "name" ≠ some n) →
      (V1.detect_duplicate_config s).2.count (Issue.duplicateComponent n) =
        post.countP (fun b => b.getAttr "name" == some n)) ∧
    ((V1.detect_duplicate_config s).2.count Issue.missingComponentName =
      e.components.countP
        (fun c => decide (c.getAttr "name" = none ∨ c.getAttr "name" = some ""))) ∧
    (∀ (c1 c2 : Element) (n : String), e.children = [c1, c2] →
      c1.tag = "component" → c2.tag = "component" →
      c1.getAttr "name" = some n → c2.getAttr "name" = some n → n ≠ "" →
      (V1.detect_duplicate_config s).2 = [Issue.duplicateComponent n]) := by
  refine ⟨?_, ?_, ?_, ?_, ?_⟩
  · rw [V1_dup_issues_eq s e hroot, V2_dup_issues_eq s e hroot]
  · intro n hn
    rw [V1_dup_issues_eq s e hroot, dupCore_count_dup n hn e.components []]
    simp
  · intro pre c post n hdecomp hc hn hpre
    rw [V1_dup_issues_eq s e hroot, dupCore_count_dup n hn e.components [], hdecomp]
    rw [if_neg (List.not_mem_nil n)]
    rw [List.countP_append, List.countP_cons]
    have hpre0 : pre.countP (fun b => b.getAttr "name" == some n) = 0 := by
      rw [List.countP_eq_zero]
      intro b hb
      simp only [beq_iff_eq]
      exact fun h => hpre b hb h
    rw [hpre0]
    simp [hc]
  · rw [V1_dup_issues_eq s e hroot]
    exact dupCore_count_missing e.components []
  · intro c1 c2 n hch ht1 ht2 hc1 hc2 hn
    have hcomp : e.components = [c1, c2] := by
      simp [Element.components, hch, ht1, ht2]
    rw [V1_dup_issues_eq s e hroot, hcomp]
    simp [V1.dupCore, hc1, hc2, hn]

/-- A concrete document carrying two components named `"X"`. -/
def dupPairDoc : Element :=
  { tag := "project", attrs := [],
    children :=
      [{ tag := "component", attrs := [("name", "X")], children := [] },
       { tag := "component", attrs := [("name", "X")], children := [] }] }

/-- Witness for C8 on `dupPairDoc`: exactly one duplicate issue, naming "X". -/
theorem claim_C8_duplicate_rule_witness :
    (V1.detect_duplicate_config (V1.mkAnalyzer true (.ok dupPairDoc))).2 =
      [Issue.duplicateComponent "X"] :=
  (claim_C8_duplicate_rule dupPairDoc (V1.mkAnalyzer true (.ok dupPairDoc))
      (by rfl)).2.2.2.2
    { tag := "component", attrs := [("name", "X")], children := [] }
    { tag := "component", attrs := [("name", "X")], children := [] }
    "X" (by rfl) (by rfl) (by rfl) (by rfl) (by rfl) (by decide)

/-! ### State-shape lemmas for the rule methods (used for the report claims):
each rule leaves `self.root` and `self.issues` untouched, its issue output is
a function of the root alone, its deduction is non-negative, and the score
never increases (from a non-negative score). -/

theorem SCORE_DEDUCTIONS_nonneg (k : String) : 0 ≤ SCORE_DEDUCTIONS k := by
  unfold SCORE_DEDUCTIONS
  split_ifs <;> norm_num

theorem normSdkStep_d_nonneg (c : Element) : 0 ≤ (V1.normSdkStep ([], 0) c).2 := by
  unfold V1.normSdkStep
  repeat' split
  all_goals simp [SCORE_DEDUCTIONS_nonneg]

theorem normSdkFold_d_mono :
    ∀ (l : List Element) (acc : List Issue × Int), acc.2 ≤ (l.foldl V1.normSdkStep acc).2 := by
  intro l
  induction l with
  | nil => intro acc; exact le_refl _
  | cons c cs ih =>
    intro acc
    refine le_trans ?_ (ih (V1.normSdkStep acc c))
    rw [normSdkStep_decompose]
    have := normSdkStep_d_nonneg c
    omega

theorem compatStep_d_nonneg (c : Element) : 0 ≤ (V1.compatStep ([], 0) c).2 := by
  unfold V1.compatStep
  repeat' split
  all_goals simp [SCORE_DEDUCTIONS_nonneg]

theorem compatFold_d_mono :
    ∀ (l : List Element) (acc : List Issue × Int), acc.2 ≤ (l.foldl V1.compatStep acc).2 := by
  intro l
  induction l with
  | nil => intro acc; exact le_refl _
  | cons c cs ih =>
    intro acc
    refine le_trans ?_ (ih (V1.compatStep acc c))
    rw [compatStep_decompose]
    have := compatStep_d_nonneg c
    omega

theorem V1_normCore_d_nonneg (e : Element) : 0 ≤ (V1.normCore e).2 := by
  unfold V1.normCore
  have h1 := normSdkFold_d_mono e.components ([], 0)
  have h2 := SCORE_DEDUCTIONS_nonneg "invalid_version_format"
  repeat' split
  all_goals simp at h1 ⊢
  all_goals omega

theorem V1_compatCore_d_nonneg (e : Element) : 0 ≤ (V1.compatCore e).2 := by
  unfold V1.compatCore
  have h1 := compatFold_d_mono e.components ([], 0)
  simpa using h1

theorem dupCore_d_nonneg : ∀ (l : List Element) (seen : List String),
    0 ≤ (V1.dupCore l seen).2 := by
  intro l
  induction l with
  | nil => intro seen; simp [V1.dupCore]
  | cons c cs ih =>
    intro seen
    unfold V1.dupCore
    have h10 := SCORE_DEDUCTIONS_nonneg "duplicate_component"
    repeat' split
    all_goals simp
    all_goals first
      | (have hrec := ih seen
         omega)
      | exact ih _

theorem V2_normCore_d_nonneg (e : Element) (r : Option Element) :
    0 ≤ (V2.normCore e r).2 := by
  unfold V2.normCore
  repeat' split
  all_goals simp [ScoreDeduction.INVALID_VERSION_FORMAT, ScoreDeduction.SDK_SPECIAL_CHARS]

theorem V1_norm_preserves (s : AnalyzerState) :
    (V1.check_config_norm s).1.root = s.root ∧
    (V1.check_config_norm s).1.issues = s.issues := by
  unfold V1.check_config_norm
  repeat' split
  all_goals exact ⟨rfl, rfl⟩

theorem V1_dup_preserves (s : AnalyzerState) :
    (V1.detect_duplicate_config s).1.root = s.root ∧
    (V1.detect_duplicate_config s).1.issues = s.issues := by
  unfold V1.detect_duplicate_config
  repeat' split
  all_goals exact ⟨rfl, rfl⟩

theorem V1_compat_preserves (s : AnalyzerState) :
    (V1.check_version_compatibility s).1.root = s.root ∧
    (V1.check_version_compatibility s).1.issues = s.issues := by
  unfold V1.check_version_compatibility
  repeat' split
  all_goals exact ⟨rfl, rfl⟩

theorem V2_norm_preserves (s : AnalyzerState) :
    (V2.check_config_norm s).1.root = s.root ∧
    (V2.check_config_norm s).1.issues = s.issues := by
  unfold V2.check_config_norm
  repeat' split
  all_goals exact ⟨rfl, rfl⟩

theorem V2_dup_preserves (s : AnalyzerState) :
    (V2.detect_duplicate_config s).1.root = s.root ∧
    (V2.detect_duplicate_config s).1.issues = s.issues := by
  unfold V2.detect_duplicate_config
  repeat' split
  all_goals exact ⟨rfl, rfl⟩

theorem V2_compat_preserves (s : AnalyzerState) :
    (V2.check_version_compatibility s).1.root = s.root ∧
    (V2.check_version_compatibility s).1.issues = s.issues := by
  unfold V2.check_version_compatibility
  repeat' split
  all_goals exact ⟨rfl, rfl⟩

/-! Issue outputs as functions of the root alone. -/

theorem V1_norm_issues_fun (s : AnalyzerState) :
    (V1.check_config_norm s).2 =
      (match s.root with
       | none => []
       | some e => if e.truthy then (V1.normCore e).1 else []) := by
  unfold V1.check_config_norm
  cases hr : s.root with
  | none => simp [rootTruthy, hr]
  | some e => by_cases ht : e.truthy <;> simp [rootTruthy, hr, ht]

theorem V1_dup_issues_fun (s : AnalyzerState) :
    (V1.detect_duplicate_config s).2 =
      (match s.root with
       | none => []
       | some e => if e.truthy then (V1.dupCore e.components []).1 else []) := by
  unfold V1.detect_duplicate_config
  cases hr : s.root with
  | none => simp [rootTruthy, hr]
  | some e => by_cases ht : e.truthy <;> simp [rootTruthy, hr, ht]

theorem V1_compat_issues_fun (s : AnalyzerState) :
    (V1.check_version_compatibility s).2 =
      (match s.root with
       | none => []
       | some e => if e.truthy then (V1.compatCore e).1 else []) := by
  unfold V1.check_version_compatibility
  cases hr : s.root with
  | none => simp [rootTruthy, hr]
  | some e => by_cases ht : e.truthy <;> simp [rootTruthy, hr, ht]

theorem V2_norm_issues_fun (s : AnalyzerState) :
    (V2.check_config_norm s).2 =
      (match s.root with
       | none => []
       | some e => if e.truthy then (V2.normCore e (some e)).1 else []) := by
  unfold V2.check_config_norm
  cases hr : s.root with
  | none => simp [rootTruthy, hr]
  | some e => by_cases ht : e.truthy <;> simp [rootTruthy, hr, ht]

theorem V2_dup_issues_fun (s : AnalyzerState) :
    (V2.detect_duplicate_config s).2 =
      (match s.root with
       | none => []
       | some e => if e.truthy then (V1.dupCore e.components []).1 else []) := by
  unfold V2.detect_duplicate_config
  cases hr : s.root with
  | none => simp [rootTruthy, hr]
  | some e => by_cases ht : e.truthy <;> simp [rootTruthy, hr, ht]

theorem V2_compat_issues_fun (s : AnalyzerState) :
    (V2.check_version_compatibility s).2 =
      (match V2.getProjectJdkValue s.root with
       | none => []
       | some v =>
         if v = "" || !containsPython v then []
         else
           match pyVersionSearch v.toList with
           | none => [Issue.unparseablePythonVersion v]
           | some (d1, d2) =>
             if pyVersionTooLow d1 d2 then
               [Issue.pythonVersionTooLow (String.mk d1) (String.mk d2)]
             else []) := by
  unfold V2.check_version_compatibility
  cases hj : V2.getProjectJdkValue s.root with
  | none => simp
  | some v =>
    by_cases hv : v = "" || !containsPython v
    · simp [hv]
    · simp only [hv, if_false, Bool.false_eq_true]
      cases hp : pyVersionSearch v.toList with
      | none => simp
      | some p => cases p with
        | mk d1 d2 => by_cases hl : pyVersionTooLow d1 d2 <;> simp [hl]

/-! Score evolution of one rule call. -/

theorem V1_norm_score_le (s : AnalyzerState) (h : 0 ≤ s.score) :
    (V1.check_config_norm s).1.score ≤ s.score ∧ 0 ≤ (V1.check_config_norm s).1.score := by
  unfold V1.check_config_norm
  split
  · exact ⟨le_refl _, h⟩
  · split
    · exact ⟨le_refl _, h⟩
    · rename_i e heq
      have hd := V1_normCore_d_nonneg e
      dsimp only
      constructor <;> omega

theorem V1_dup_score_le (s : AnalyzerState) (h : 0 ≤ s.score) :
    (V1.detect_duplicate_config s).1.score ≤ s.score ∧
    0 ≤ (V1.detect_duplicate_config s).1.score := by
  unfold V1.detect_duplicate_config
  split
  · exact ⟨le_refl _, h⟩
  · split
    · exact ⟨le_refl _, h⟩
    · rename_i e heq
      have hd := dupCore_d_nonneg e.components []
      dsimp only
      constructor <;> omega

theorem V1_compat_score_le (s : AnalyzerState) (h : 0 ≤ s.score) :
    (V1.check_version_compatibility s).1.score ≤ s.score ∧
    0 ≤ (V1.check_version_compatibility s).1.score := by
  unfold V1.check_version_compatibility
  split
  · exact ⟨le_refl _, h⟩
  · split
    · exact ⟨le_refl _, h⟩
    · rename_i e heq
      have hd := V1_compatCore_d_nonneg e
      dsimp only
      constructor <;> omega

theorem V2_norm_score_le (s : AnalyzerState) (h : 0 ≤ s.score) :
    (V2.check_config_norm s).1.score ≤ s.score ∧ 0 ≤ (V2.check_config_norm s).1.score := by
  unfold V2.check_config_norm
  split
  · exact ⟨le_refl _, h⟩
  · split
    · exact ⟨le_refl _, h⟩
    · rename_i e heq
      have hd := V2_normCore_d_nonneg e s.root
      dsimp only [V2.clampScore]
      constructor <;> omega

theorem V2_dup_score_le (s : AnalyzerState) (h : 0 ≤ s.score) :
    (V2.detect_duplicate_config s).1.score ≤ s.score ∧
    0 ≤ (V2.detect_duplicate_config s).1.score := by
  unfold V2.detect_duplicate_config
  split
  · exact ⟨le_refl _, h⟩
  · split
    · exact ⟨le_refl _, h⟩
    · rename_i e heq
      have hd := dupCore_d_nonneg e.components []
      dsimp only [V2.clampScore]
      constructor <;> omega

theorem V2_compat_score_le (s : AnalyzerState) (h : 0 ≤ s.score) :
    (V2.check_version_compatibility s).1.score ≤ s.score ∧
    0 ≤ (V2.check_version_compatibility s).1.score := by
  unfold V2.check_version_compatibility
  repeat' split
  all_goals
    simp only [V2.clampScore, ScoreDeduction.INVALID_PYTHON_VERSION_PARSE,
      ScoreDeduction.PYTHON_VERSION_TOO_LOW]
  all_goals constructor <;> omega

/-! Shape of one `generate_report` call. -/

theorem V1_report_shape (s : AnalyzerState) :
    (V1.generate_report s).1.root = s.root ∧
    (V1.generate_report s).1.issues =
      s.issues ++ ((V1.check_config_norm s).2 ++ (V1.detect_duplicate_config s).2 ++
        (V1.check_version_compatibility s).2) ∧
    (V1.generate_report s).2.issues = (V1.generate_report s).1.issues := by
  have hn := V1_norm_preserves s
  have hd := V1_dup_preserves (V1.check_config_norm s).1
  have hc := V1_compat_preserves
    (V1.detect_duplicate_config (V1.check_config_norm s).1).1
  unfold V1.generate_report
  dsimp only
  refine ⟨by rw [hc.1, hd.1, hn.1], ?_, rfl⟩
  rw [hc.2, hd.2, hn.2]
  congr 1
  rw [V1_dup_issues_fun (V1.check_config_norm s).1, V1_dup_issues_fun s, hn.1]
  rw [V1_compat_issues_fun (V1.detect_duplicate_config (V1.check_config_norm s).1).1,
    V1_compat_issues_fun s, hd.1, hn.1]

theorem V2_report_shape (s : AnalyzerState) :
    (V2.generate_report s).1.root = s.root ∧
    (V2.generate_report s).1.issues =
      s.issues ++ ((V2.check_config_norm s).2 ++ (V2.detect_duplicate_config s).2 ++
        (V2.check_version_compatibility s).2) ∧
    (V2.generate_report s).2.issues = (V2.generate_report s).1.issues := by
  have hn := V2_norm_preserves s
  have hd := V2_dup_preserves (V2.check_config_norm s).1
  have hc := V2_compat_preserves
    (V2.detect_duplicate_config (V2.check_config_norm s).1).1
  unfold V2.generate_report
  dsimp only
  refine ⟨by rw [hc.1, hd.1, hn.1], ?_, rfl⟩
  rw [hc.2, hd.2, hn.2]
  congr 1
  rw [V2_dup_issues_fun (V2.check_config_norm s).1, V2_dup_issues_fun s, hn.1]
  rw [V2_compat_issues_fun (V2.detect_duplicate_config (V2.check_config_norm s).1).1,
    V2_compat_issues_fun s, hd.1, hn.1]

theorem V1_report_score (s : AnalyzerState) (h : 0 ≤ s.score) :
    (V1.generate_report s).1.score ≤ s.score ∧ 0 ≤ (V1.generate_report s).1.score := by
  have h1 := V1_norm_score_le s h
  have h2 := V1_dup_score_le (V1.check_config_norm s).1 h1.2
  have h3 := V1_compat_score_le
    (V1.detect_duplicate_config (V1.check_config_norm s).1).1 h2.2
  unfold V1.generate_report
  dsimp only
  exact ⟨le_trans (le_trans h3.1 h2.1) h1.1, h3.2⟩

theorem V2_report_score (s : AnalyzerState) (h : 0 ≤ s.score) :
    (V2.generate_report s).1.score ≤ s.score ∧ 0 ≤ (V2.generate_report s).1.score := by
  have h1 := V2_norm_score_le s h
  have h2 := V2_dup_score_le (V2.check_config_norm s).1 h1.2
  have h3 := V2_compat_score_le
    (V2.detect_duplicate_config (V2.check_config_norm s).1).1 h2.2
  unfold V2.generate_report
  dsimp only [V2.clampScore]
  constructor <;> omega

/-- C9: `generate_report` is not idempotent, in either implementation.  From
any analyzer state with a non-negative score (every reachable state has one),
a second call re-runs all rules on the unchanged document, appends the very
same rule issues to the issue list again — the second final issue list is the
first one plus another copy of its rule-issue suffix — and deducts their
penalties again (the score does not increase); whenever any rule fired, the
second report's issue list is strictly longer than the first's. -/
theorem claim_C9_report_not_idempotent (s : AnalyzerState) (hs : 0 ≤ s.score) :
    ((V1.generate_report (V1.generate_report s).1).1.issues =
      (V1.generate_report s).1.issues ++
        ((V1.generate_report s).1.issues.drop s.issues.length)) ∧
    ((V1.generate_report s).1.issues ≠ s.issues →
      (V1.generate_report (V1.generate_report s).1).2.issues.length >
        (V1.generate_report s).2.issues.length) ∧
    ((V1.generate_report (V1.generate_report s).1).1.score ≤
      (V1.generate_report s).1.score) ∧
    ((V2.generate_report (V2.generate_report s).1).1.issues =
      (V2.generate_report s).1.issues ++
        ((V2.generate_report s).1.issues.drop s.issues.length)) ∧
    ((V2.generate_report s).1.issues ≠ s.issues →
      (V2.generate_report (V2.generate_report s).1).2.issues.length >
        (V2.generate_report s).2.issues.length) ∧
    ((V2.generate_report (V2.generate_report s).1).1.score ≤
      (V2.generate_report s).1.score) := by
  have hA := V1_report_shape s
  have hB := V1_report_shape (V1.generate_report s).1
  have hRn : (V1.check_config_norm (V1.generate_report s).1).2 =
      (V1.check_config_norm s).2 := by
    rw [V1_norm_issues_fun, V1_norm_issues_fun s, hA.1]
  have hRd : (V1.detect_duplicate_config (V1.generate_report s).1).2 =
      (V1.detect_duplicate_config s).2 := by
    rw [V1_dup_issues_fun, V1_dup_issues_fun s, hA.1]
  have hRc : (V1.check_version_compatibility (V1.generate_report s).1).2 =
      (V1.check_version_compatibility s).2 := by
    rw [V1_compat_issues_fun, V1_compat_issues_fun s, hA.1]
  have hdrop : (V1.generate_report s).1.issues.drop s.issues.length =
      ((V1.check_config_norm s).2 ++ (V1.detect_duplicate_config s).2 ++
        (V1.check_version_compatibility s).2) := by
    rw [hA.2.1, List.drop_left]
  have hA2 := V2_report_shape s
  have hB2 := V2_report_shape (V2.generate_report s).1
  have hRn2 : (V2.check_config_norm (V2.generate_report s).1).2 =
      (V2.check_config_norm s).2 := by
    rw [V2_norm_issues_fun, V2_norm_issues_fun s, hA2.1]
  have hRd2 : (V2.detect_duplicate_config (V2.generate_report s).1).2 =
      (V2.detect_duplicate_config s).2 := by
    rw [V2_dup_issues_fun, V2_dup_issues_fun s, hA2.1]
  have hRc2 : (V2.check_version_compatibility (V2.generate_report s).1).2 =
      (V2.check_version_compatibility s).2 := by
    rw [V2_compat_issues_fun, V2_compat_issues_fun s, hA2.1]
  have hdrop2 : (V2.generate_report s).1.issues.drop s.issues.length =
      ((V2.check_config_norm s).2 ++ (V2.detect_duplicate_config s).2 ++
        (V2.check_version_compatibility s).2) := by
    rw [hA2.2.1, List.drop_left]
  refine ⟨?_, ?_, ?_, ?_, ?_, ?_⟩
  · rw [hB.2.1, hRn, hRd, hRc, hdrop]
  · intro hne
    rw [hB.2.2, hA.2.2, hB.2.1, hRn, hRd, hRc, List.length_append]
    have hRne : ((V1.check_config_norm s).2 ++ (V1.detect_duplicate_config s).2 ++
        (V1.check_version_compatibility s).2) ≠ [] := by
      intro hcontra
      apply hne
      rw [hA.2.1, hcontra, List.append_nil]
    have := List.length_pos.mpr hRne
    omega
  · exact (V1_report_score (V1.generate_report s).1 (V1_report_score s hs).2).1
  · rw [hB2.2.1, hRn2, hRd2, hRc2, hdrop2]
  · intro hne
    rw [hB2.2.2, hA2.2.2, hB2.2.1, hRn2, hRd2, hRc2, List.length_append]
    have hRne : ((V2.check_config_norm s).2 ++ (V2.detect_duplicate_config s).2 ++
        (V2.check_version_compatibility s).2) ≠ [] := by
      intro hcontra
      apply hne
      rw [hA2.2.1, hcontra, List.append_nil]
    have := List.length_pos.mpr hRne
    omega
  · exact (V2_report_score (V2.generate_report s).1 (V2_report_score s hs).2).1

/-- Witness for C9: on the analyzer loaded with `allPenaltyDoc`, the second
report's issue list is strictly longer than the first's, in both
implementations. -/
theorem claim_C9_report_not_idempotent_witness :
    (V1.generate_report
        (V1.generate_report (V1.mkAnalyzer true (.ok allPenaltyDoc))).1).2.issues.length >
      (V1.generate_report (V1.mkAnalyzer true (.ok allPenaltyDoc))).2.issues.length ∧
    (V2.generate_report
        (V2.generate_report (V2.mkAnalyzer true (.ok allPenaltyDoc))).1).2.issues.length >
      (V2.generate_report (V2.mkAnalyzer true (.ok allPenaltyDoc))).2.issues.length :=
  ⟨(claim_C9_report_not_idempotent (V1.mkAnalyzer true (.ok allPenaltyDoc))
      (by decide)).2.1 (by decide),
   (claim_C9_report_not_idempotent (V2.mkAnalyzer true (.ok allPenaltyDoc))
      (by decide)).2.2.2.2.1 (by decide)⟩

/-! ### Original-vs-rewrite equivalence machinery (claim C10) -/

theorem getAux_none (l : List Element)
    (h : ∀ b ∈ l, ¬b.getAttr "name" = some "ProjectRootManager") :
    V2.getProjectJdkValueAux l = none := by
  induction l with
  | nil => rfl
  | cons c cs ih =>
    unfold V2.getProjectJdkValueAux
    rw [if_neg (h c (List.mem_cons_self c cs))]
    exact ih (fun b hb => h b (List.mem_cons_of_mem c hb))

theorem compatFold_skip (l : List Element)
    (h : ∀ b ∈ l, ¬b.getAttr "name" = some "ProjectRootManager") :
    ∀ acc, l.foldl V1.compatStep acc = acc := by
  induction l with
  | nil => intro acc; rfl
  | cons c cs ih =>
    intro acc
    have hstep : V1.compatStep acc c = acc := by
      unfold V1.compatStep
      rw [if_neg (h c (List.mem_cons_self c cs))]
    rw [List.foldl_cons, hstep]
    exact ih (fun b hb => h b (List.mem_cons_of_mem c hb)) acc

theorem normSdkFold_skip (l : List Element)
    (h : ∀ b ∈ l, ¬b.getAttr "name" = some "ProjectRootManager") :
    ∀ acc, l.foldl V1.normSdkStep acc = acc := by
  induction l with
  | nil => intro acc; rfl
  | cons c cs ih =>
    intro acc
    have hstep : V1.normSdkStep acc c = acc := by
      unfold V1.normSdkStep
      rw [if_neg (h c (List.mem_cons_self c cs))]
    rw [List.foldl_cons, hstep]
    exact ih (fun b hb => h b (List.mem_cons_of_mem c hb)) acc

/-- With at most one `ProjectRootManager` component, the original SDK-naming
loop computes exactly what the rewrite computes from
`_get_project_jdk_value`. -/
theorem normSdkFold_single (l : List Element)
    (h : l.countP (fun c => c.getAttr "name" == some "ProjectRootManager") ≤ 1) :
    l.foldl V1.normSdkStep ([], 0) =
      (match V2.getProjectJdkValueAux l with
       | none => ([], 0)
       | some v =>
         if v ≠ "" && hasSpecialChar v then
           ([Issue.sdkSpecialChars v], SCORE_DEDUCTIONS "sdk_special_chars")
         else ([], 0)) := by
  induction l with
  | nil => rfl
  | cons c cs ih =>
    by_cases hc : c.getAttr "name" = some "ProjectRootManager"
    · have h0 : cs.countP (fun c => c.getAttr "name" == some "ProjectRootManager") = 0 := by
        rw [List.countP_cons] at h
        simp only [hc, beq_self_eq_true, if_true] at h
        omega
      have hnone : ∀ b ∈ cs, ¬b.getAttr "name" = some "ProjectRootManager" := by
        intro b hb
        have := List.countP_eq_zero.mp h0 b hb
        simpa using this
      rw [List.foldl_cons, normSdkFold_skip cs hnone]
      unfold V1.normSdkStep V2.getProjectJdkValueAux
      rw [if_pos hc, if_pos hc]
      cases hopt : c.findJdkOption with
      | none => simp [getAux_none cs hnone]
      | some opt =>
        by_cases ht : opt.truthy
        · simp only [ht, if_true]
          cases hv : opt.getAttr "value" with
          | none => simp
          | some v => by_cases hcond : v ≠ "" && hasSpecialChar v <;> simp [hcond]
        · simp only [ht, Bool.false_eq_true, if_false]
          simp [getAux_none cs hnone]
    · have hskip : V1.normSdkStep ([], 0) c = ([], 0) := by
        unfold V1.normSdkStep
        rw [if_neg hc]
      have h' : cs.countP (fun c => c.getAttr "name" == some "ProjectRootManager") ≤ 1 := by
        rw [List.countP_cons] at h
        omega
      rw [List.foldl_cons, hskip, ih h']
      have heq : V2.getProjectJdkValueAux (c :: cs) = V2.getProjectJdkValueAux cs := by
        simp only [V2.getProjectJdkValueAux]
        rw [if_neg hc]
      rw [heq]

/-- With at most one `ProjectRootManager` component, the original
version-compatibility loop computes exactly what the rewrite computes (when
an extracted version exists; a failed extraction contributes nothing here). -/
theorem compatFold_single (l : List Element)
    (h : l.countP (fun c => c.getAttr "name" == some "ProjectRootManager") ≤ 1) :
    l.foldl V1.compatStep ([], 0) =
      (match V2.getProjectJdkValueAux l with
       | none => ([], 0)
       | some v =>
         if v ≠ "" && containsPython v then
           match pyVersionSearch v.toList with
           | some (d1, d2) =>
             if pyVersionTooLow d1 d2 then
               ([Issue.pythonVersionTooLow (String.mk d1) (String.mk d2)],
                SCORE_DEDUCTIONS "python_version_too_low")
             else ([], 0)
           | none => ([], 0)
         else ([], 0)) := by
  induction l with
  | nil => rfl
  | cons c cs ih =>
    by_cases hc : c.getAttr "name" = some "ProjectRootManager"
    · have h0 : cs.countP (fun c => c.getAttr "name" == some "ProjectRootManager") = 0 := by
        rw [List.countP_cons] at h
        simp only [hc, beq_self_eq_true, if_true] at h
        omega
      have hnone : ∀ b ∈ cs, ¬b.getAttr "name" = some "ProjectRootManager" := by
        intro b hb
        have := List.countP_eq_zero.mp h0 b hb
        simpa using this
      rw [List.foldl_cons, compatFold_skip cs hnone]
      unfold V1.compatStep V2.getProjectJdkValueAux
      rw [if_pos hc, if_pos hc]
      cases hopt : c.findJdkOption with
      | none => simp [getAux_none cs hnone]
      | some opt =>
        by_cases ht : opt.truthy
        · simp only [ht, if_true]
          cases hv : opt.getAttr "value" with
          | none => simp
          | some v =>
            by_cases hcond : v ≠ "" && containsPython v
            · simp only [hcond, if_true]
              cases hp : pyVersionSearch v.toList with
              | none => simp
              | some p =>
                cases p with
                | mk d1 d2 => by_cases hl : pyVersionTooLow d1 d2 <;> simp [hl]
            · simp [hcond]
        · simp only [ht, Bool.false_eq_true, if_false]
          simp [getAux_none cs hnone]
    · have hskip : V1.compatStep ([], 0) c = ([], 0) := by
        unfold V1.compatStep
        rw [if_neg hc]
      have h' : cs.countP (fun c => c.getAttr "name" == some "ProjectRootManager") ≤ 1 := by
        rw [List.countP_cons] at h
        omega
      rw [List.foldl_cons, hskip, ih h']
      have heq : V2.getProjectJdkValueAux (c :: cs) = V2.getProjectJdkValueAux cs := by
        simp only [V2.getProjectJdkValueAux]
        rw [if_neg hc]
      rw [heq]

/-- The two duplicate detectors are the same function on states with an
in-range score (the only difference is the rewrite's upper clamp). -/
theorem dup_rule_equiv (s : AnalyzerState) (h0 : 0 ≤ s.score) (h100 : s.score ≤ 100) :
    V1.detect_duplicate_config s = V2.detect_duplicate_config s := by
  unfold V1.detect_duplicate_config V2.detect_duplicate_config
  cases hr : s.root with
  | none => simp [rootTruthy, hr]
  | some e =>
    by_cases ht : e.truthy
    · simp only [hr, rootTruthy, ht, Bool.not_true, Bool.false_eq_true, if_false]
      have hd := dupCore_d_nonneg e.components []
      have hsc : max 0 (s.score - (V1.dupCore e.components []).2) =
          V2.clampScore (s.score - (V1.dupCore e.components []).2) := by
        unfold V2.clampScore
        omega
      rw [hsc]
    · simp [rootTruthy, hr, ht]

/-- With at most one `ProjectRootManager` component, the two `normCore`
computations coincide on a truthy root. -/
theorem normCore_equiv (e : Element) (ht : e.truthy)
    (h1 : e.components.countP (fun c => c.getAttr "name" == some "ProjectRootManager") ≤ 1) :
    V1.normCore e = V2.normCore e (some e) := by
  have hc1 : SCORE_DEDUCTIONS "invalid_version_format" =
      ScoreDeduction.INVALID_VERSION_FORMAT := by decide
  have hc2 : SCORE_DEDUCTIONS "sdk_special_chars" =
      ScoreDeduction.SDK_SPECIAL_CHARS := by decide
  unfold V1.normCore V2.normCore V2.getProjectJdkValue
  rw [normSdkFold_single e.components h1]
  simp only [rootTruthy, ht, Bool.not_true, Bool.false_eq_true, if_false, hc1, hc2]
  cases hj : V2.getProjectJdkValueAux e.components <;> rfl

/-- The two `check_config_norm` methods agree on states with an in-range
score whose document has at most one `ProjectRootManager` component. -/
theorem norm_rule_equiv (s : AnalyzerState) (h0 : 0 ≤ s.score) (h100 : s.score ≤ 100)
    (hprm : ∀ e, s.root = some e →
      e.components.countP (fun c => c.getAttr "name" == some "ProjectRootManager") ≤ 1) :
    V1.check_config_norm s = V2.check_config_norm s := by
  unfold V1.check_config_norm V2.check_config_norm
  cases hr : s.root with
  | none => simp [rootTruthy, hr]
  | some e =>
    by_cases ht : e.truthy
    · simp only [hr, rootTruthy, ht, Bool.not_true, Bool.false_eq_true, if_false]
      rw [← normCore_equiv e ht (hprm e hr)]
      have hd := V1_normCore_d_nonneg e
      have hsc : max 0 (s.score - (V1.normCore e).2) =
          V2.clampScore (s.score - (V1.normCore e).2) := by
        unfold V2.clampScore
        omega
      rw [hsc]
    · simp [rootTruthy, hr, ht]

/-- The two `check_version_compatibility` methods agree on states with an
in-range score, at most one `ProjectRootManager` component, and no located
Python value whose version fails to parse (the one behavioural difference). -/
theorem compat_rule_equiv (s : AnalyzerState) (h0 : 0 ≤ s.score) (h100 : s.score ≤ 100)
    (hprm : ∀ e, s.root = some e →
      e.components.countP (fun c => c.getAttr "name" == some "ProjectRootManager") ≤ 1)
    (hparse : ∀ v, V2.getProjectJdkValue s.root = some v → containsPython v = true →
      pyVersionSearch v.toList ≠ none) :
    V1.check_version_compatibility s = V2.check_version_compatibility s := by
  unfold V1.check_version_compatibility V2.check_version_compatibility
  cases hr : s.root with
  | none => simp [rootTruthy, hr, V2.getProjectJdkValue]
  | some e =>
    by_cases ht : e.truthy
    · have hget : V2.getProjectJdkValue (some e) = V2.getProjectJdkValueAux e.components := by
        unfold V2.getProjectJdkValue
        simp [rootTruthy, ht]
      simp only [hr, rootTruthy, ht, Bool.not_true, Bool.false_eq_true, if_false, hget]
      unfold V1.compatCore
      rw [compatFold_single e.components (hprm e hr)]
      cases hj : V2.getProjectJdkValueAux e.components with
      | none =>
        simp only
        have hz : max 0 (s.score - (([] : List Issue), (0 : Int)).2) = s.score := by
          simp
          omega
        rw [hz, ← hr]
      | some v =>
        by_cases hcond : (decide (v ≠ "") && containsPython v) = true
        · have hv : ¬v = "" := by
            intro hveq
            simp [hveq] at hcond
          have hpy : containsPython v = true := by
            rcases Bool.and_eq_true .. |>.mp hcond with ⟨_, h⟩
            exact h
          have hvf : (decide (v = "") || !containsPython v) = false := by
            simp [hv, hpy]
          have hps : pyVersionSearch v.toList ≠ none := by
            apply hparse v ?_ hpy
            rw [hr, hget, hj]
          cases hp : pyVersionSearch v.toList with
          | none => exact absurd hp hps
          | some p =>
            cases p with
            | mk d1 d2 =>
              simp only [hcond, if_true, hvf, Bool.false_eq_true, if_false, hp]
              by_cases hl : pyVersionTooLow d1 d2
              · simp only [hl, if_true]
                have hc10 : SCORE_DEDUCTIONS "python_version_too_low" =
                    ScoreDeduction.PYTHON_VERSION_TOO_LOW := by decide
                have hsc : max 0 (s.score -
                    (([Issue.pythonVersionTooLow (String.mk d1) (String.mk d2)],
                      SCORE_DEDUCTIONS "python_version_too_low") :
                        List Issue × Int).2) =
                    V2.clampScore (s.score - ScoreDeduction.PYTHON_VERSION_TOO_LOW) := by
                  simp only [V2.clampScore, hc10]
                  have : ScoreDeduction.PYTHON_VERSION_TOO_LOW = 10 := by decide
                  omega
                rw [hsc]
              · simp only [hl, Bool.false_eq_true, if_false]
                have hsc : max 0 (s.score - (([] : List Issue), (0 : Int)).2) = s.score := by
                  simp
                  omega
                have hsc2 : V2.clampScore s.score = s.score := by
                  unfold V2.clampScore
                  omega
                rw [hsc, hsc2, ← hr]
        · have hcondf : (decide (v ≠ "") && containsPython v) = false := by
            revert hcond
            cases (decide (v ≠ "") && containsPython v) <;> simp
          have hvt : (decide (v = "") || !containsPython v) = true := by
            by_cases hv : v = ""
            · simp [hv]
            · simp only [decide_eq_true (show v ≠ "" from hv), Bool.true_and] at hcondf
              simp [hcondf]
          simp only [hcondf, Bool.false_eq_true, if_false, hvt, if_true]
          have hz : max 0 (s.score - (([] : List Issue), (0 : Int)).2) = s.score := by
            simp
            omega
          rw [hz, ← hr]
    · have hget : V2.getProjectJdkValue (some e) = none := by
        unfold V2.getProjectJdkValue
        simp [rootTruthy, ht]
      simp [rootTruthy, hr, ht, hget]

/-- The two `load_xml` implementations build identical analyzer states except
for a permission error (different issue kind) and a missing file with a
non-`.xml` suffix (the original also records the suffix warning and deducts
10 more). -/
theorem load_equiv (x : Bool) (o : LoadOutcome) (hperm : o ≠ .permissionError)
    (hnf : o = .notFound → x = true) :
    V1.mkAnalyzer x o = V2.mkAnalyzer x o := by
  cases o with
  | notFound =>
    have hx := hnf rfl
    subst hx
    rfl
  | parseError => cases x <;> rfl
  | permissionError => exact absurd rfl hperm
  | otherError => cases x <;> rfl
  | ok e => cases x <;> rfl

theorem V2_mk_root (x : Bool) (o : LoadOutcome) :
    (V2.mkAnalyzer x o).root =
      (match o with | .ok e => some e | _ => none) := by
  cases o <;> cases x <;> rfl

theorem V2_mk_score_bounds (x : Bool) (o : LoadOutcome) :
    0 ≤ (V2.mkAnalyzer x o).score ∧ (V2.mkAnalyzer x o).score ≤ 100 := by
  cases o <;> cases x <;>
    simp only [V2.mkAnalyzer, V2.load_xml, V2.clampScore, initState] <;>
    constructor <;> omega

/-- C10 amended: the original class and the rewrite produce the same final
report score and issues of the same kinds in the same order, provided the
load outcome is not a permission error, a missing file comes with an `.xml`
suffix, the loaded document has at most one `ProjectRootManager` component,
and no located SDK value containing `"Python"` fails version extraction —
each hypothesis excludes one concrete behavioural difference between the two
classes. -/
theorem claim_C10_equivalence (xmlSuffix : Bool) (outcome : LoadOutcome)
    (hperm : outcome ≠ .permissionError)
    (hnf : outcome = .notFound → xmlSuffix = true)
    (hprm : ∀ e, outcome = .ok e →
      e.components.countP (fun c => c.getAttr "name" == some "ProjectRootManager") ≤ 1)
    (hparse : ∀ e v, outcome = .ok e → V2.getProjectJdkValue (some e) = some v →
      containsPython v = true → pyVersionSearch v.toList ≠ none) :
    (V1.generate_report (V1.mkAnalyzer xmlSuffix outcome)).2.score =
      (V2.generate_report (V2.mkAnalyzer xmlSuffix outcome)).2.score ∧
    (V1.generate_report (V1.mkAnalyzer xmlSuffix outcome)).2.issues.map Issue.kind =
      (V2.generate_report (V2.mkAnalyzer xmlSuffix outcome)).2.issues.map Issue.kind := by
  have hload := load_equiv xmlSuffix outcome hperm hnf
  have hb := V2_mk_score_bounds xmlSuffix outcome
  have hrootfact := V2_mk_root xmlSuffix outcome
  have hprm' : ∀ e, (V2.mkAnalyzer xmlSuffix outcome).root = some e →
      e.components.countP (fun c => c.getAttr "name" == some "ProjectRootManager") ≤ 1 := by
    intro e he
    rw [hrootfact] at he
    cases outcome with
    | ok e2 =>
      injection he with hee
      subst hee
      exact hprm _ rfl
    | notFound => cases he
    | parseError => cases he
    | permissionError => cases he
    | otherError => cases he
  have hparse' : ∀ v,
      V2.getProjectJdkValue (V2.mkAnalyzer xmlSuffix outcome).root = some v →
      containsPython v = true → pyVersionSearch v.toList ≠ none := by
    intro v hv hpy
    rw [hrootfact] at hv
    cases outcome with
    | ok e2 => exact hparse e2 v rfl hv hpy
    | notFound => simp [V2.getProjectJdkValue, rootTruthy] at hv
    | parseError => simp [V2.getProjectJdkValue, rootTruthy] at hv
    | permissionError => simp [V2.getProjectJdkValue, rootTruthy] at hv
    | otherError => simp [V2.getProjectJdkValue, rootTruthy] at hv
  have h1 : V1.check_config_norm (V2.mkAnalyzer xmlSuffix outcome) =
      V2.check_config_norm (V2.mkAnalyzer xmlSuffix outcome) :=
    norm_rule_equiv _ hb.1 hb.2 hprm'
  have hb1 := V2_norm_score_le (V2.mkAnalyzer xmlSuffix outcome) hb.1
  have hr1 := V2_norm_preserves (V2.mkAnalyzer xmlSuffix outcome)
  have h2 : V1.detect_duplicate_config
        (V2.check_config_norm (V2.mkAnalyzer xmlSuffix outcome)).1 =
      V2.detect_duplicate_config
        (V2.check_config_norm (V2.mkAnalyzer xmlSuffix outcome)).1 :=
    dup_rule_equiv _ hb1.2 (le_trans hb1.1 hb.2)
  have hb2 := V2_dup_score_le
    (V2.check_config_norm (V2.mkAnalyzer xmlSuffix outcome)).1 hb1.2
  have hr2 := V2_dup_preserves
    (V2.check_config_norm (V2.mkAnalyzer xmlSuffix outcome)).1
  have h3 : V1.check_version_compatibility
        (V2.detect_duplicate_config
          (V2.check_config_norm (V2.mkAnalyzer xmlSuffix outcome)).1).1 =
      V2.check_version_compatibility
        (V2.detect_duplicate_config
          (V2.check_config_norm (V2.mkAnalyzer xmlSuffix outcome)).1).1 := by
    apply compat_rule_equiv _ hb2.2 (le_trans hb2.1 (le_trans hb1.1 hb.2))
    · intro e he
      apply hprm' e
      rw [← hr1.1, ← hr2.1]
      exact he
    · intro v hv hpy
      apply hparse' v ?_ hpy
      rw [← hv, hr2.1, hr1.1]
  rw [hload]
  unfold V1.generate_report V2.generate_report
  dsimp only
  rw [h1, h2, h3]
  exact ⟨rfl, rfl⟩

/-- C10 counterexample: on a missing file whose path does not end in `.xml`,
the two classes are not behaviorally equivalent — the original's report
scores 40 with issue kinds [non-XML warning, file-not-found], the rewrite's
scores 50 with the single kind [file-not-found]. -/
theorem claim_C10_counterexample :
    (V1.generate_report (V1.mkAnalyzer false .notFound)).2.score = 40 ∧
    (V2.generate_report (V2.mkAnalyzer false .notFound)).2.score = 50 ∧
    (V1.generate_report (V1.mkAnalyzer false .notFound)).2.issues.map Issue.kind =
      [IssueKind.nonXmlFile, IssueKind.fileNotFound] ∧
    (V2.generate_report (V2.mkAnalyzer false .notFound)).2.issues.map Issue.kind =
      [IssueKind.fileNotFound] :=
  ⟨by decide, by decide, by decide, by decide⟩

/-- Witness for C10's amended equivalence at a concrete single-component
document with SDK value `"Python 3.6"`. -/
theorem claim_C10_equivalence_witness :
    (V1.generate_report (V1.mkAnalyzer true
        (.ok (projectWith (childBearingJdkOption "Python 3.6"))))).2.score =
      (V2.generate_report (V2.mkAnalyzer true
        (.ok (projectWith (childBearingJdkOption "Python 3.6"))))).2.score ∧
    (V1.generate_report (V1.mkAnalyzer true
        (.ok (projectWith (childBearingJdkOption "Python 3.6"))))).2.issues.map Issue.kind =
      (V2.generate_report (V2.mkAnalyzer true
        (.ok (projectWith (childBearingJdkOption "Python 3.6"))))).2.issues.map Issue.kind :=
  claim_C10_equivalence true (.ok (projectWith (childBearingJdkOption "Python 3.6")))
    (fun h => nomatch h) (fun _ => rfl)
    (fun e he => by
      injection he with hee
      subst hee
      decide)
    (fun e v he hv hpy => by
      injection he with hee
      subst hee
      have hgv : V2.getProjectJdkValue
          (some (projectWith (childBearingJdkOption "Python 3.6"))) =
          some "Python 3.6" := by rfl
      rw [hgv] at hv
      injection hv with hvv
      subst hvv
      decide)
